import Mathlib

/-!
# Undo/redo commands of the BSP editor (`src/editor/Command.cpp`)

A shallow embedding of the command classes of `Command.cpp`.

* Pointers that the code may receive as `NULL` are `Option` values.
* A call that dereferences `NULL`, indexes a vector out of range or reads a
  buffer past its end has no defined result in C++; every operation that can do
  so returns an `Option`, and `none` stands for that fault.
* `int` fields are `Int`; where the code compares an `int` with a `size_t`
  the conversion to `size_t` is written out (`toSizeT`).
* Renderer caches and GUI widgets are outside the document and carry no state
  here; a call through the renderer pointer still faults when the pointer is
  `NULL`.
-/

namespace BspGuy

set_option maxRecDepth 20000

/-! ## Machine integers -/

/-- Conversion of an `int` to `size_t` (64 bit): reduction modulo `2^64`. -/
def toSizeT (x : Int) : Nat := (x % (2 ^ 64 : Int)).toNat

/-- Conversion of a signed value to `uint` (32 bit): reduction modulo `2^32`. -/
def toUInt32 (x : Int) : Nat := (x % (2 ^ 32 : Int)).toNat

/-- Conversion of a `uint` to `int` (32 bit, two's complement). -/
def toInt32 (u : Nat) : Int :=
  if u % 2 ^ 32 < 2 ^ 31 then ((u % 2 ^ 32 : Nat) : Int) else ((u % 2 ^ 32 : Nat) : Int) - 2 ^ 32

/-- The values an `int` can hold. -/
def isInt (x : Int) : Prop := -(2 ^ 31 : Int) ≤ x ∧ x < (2 ^ 31 : Int)

instance (x : Int) : Decidable (isInt x) := by
  unfold isInt
  exact inferInstance

/-- Rendering of `std::to_string(int)`: the decimal digits, with a leading minus sign
for a negative value. -/
def to_string (n : Int) : String := toString n

/-! ## Entities -/

/-- Modelled from the spec: the `Entity` class (declared outside `Command.cpp`), an ordered
mapping from string keys to string values. Assignment `*a = *b` copies the whole record. -/
structure Entity where
  keyvalues : List (String × String)
deriving DecidableEq, Repr

/-- Replace the value stored under `key`, or append the pair when the key is new. -/
def setKeyvalue : List (String × String) → String → String → List (String × String)
  | [], key, value => [(key, value)]
  | (k, v) :: rest, key, value =>
    if k = key then (k, value) :: rest else (k, v) :: setKeyvalue rest key value

/-- Value stored under `key`, if any. -/
def lookupKeyvalue : List (String × String) → String → Option String
  | [], _ => none
  | (k, v) :: rest, key => if k = key then some v else lookupKeyvalue rest key

/-- Modelled from the spec: reading one field of an entity (the `keyvalues` map of the
`Entity` class, declared outside `Command.cpp`). -/
def Entity.keyvalue (e : Entity) (key : String) : Option String :=
  lookupKeyvalue e.keyvalues key

/-- Modelled from the spec: `Entity::setOrAddKeyvalue` (defined outside `Command.cpp`):
"update the target entity's field" - the field holds the new value afterwards, other
fields keep theirs. -/
def Entity.setOrAddKeyvalue (e : Entity) (key value : String) : Entity :=
  { keyvalues := setKeyvalue e.keyvalues key value }

/-- Modelled from the spec: `Entity::addKeyvalue` (defined outside `Command.cpp`):
"stamp the new sub-model's index into the entity template's field" - the field holds the
stamped value afterwards. -/
def Entity.addKeyvalue (e : Entity) (key value : String) : Entity :=
  { keyvalues := setKeyvalue e.keyvalues key value }

/-- Modelled from the spec: `Entity::getMemoryUsage` (defined outside `Command.cpp`): the
byte length of the keys and values the entity holds. -/
def Entity.getMemoryUsage (e : Entity) : Int :=
  ((e.keyvalues.map fun kv => kv.1.utf8ByteSize + kv.2.utf8ByteSize).sum : Nat)

/-! ## Segments ("lumps") -/

/-- A segment: its bytes. -/
abbrev Lump := List Nat

/-- Modelled from the spec: number of segment kinds of the document format (`HEADER_LUMPS`,
declared outside `Command.cpp`). -/
def HEADER_LUMPS : Nat := 15

/-! The segment kinds, in the order of the document format, and the bits of the snapshot
bitmask, one per kind. -/

/-- Modelled from the spec: index of the entity text segment (`LUMP_ENTITIES`, declared outside
`Command.cpp`). -/
def LUMP_ENTITIES : Nat := 0

/-- Modelled from the spec: index of the plane segment (`LUMP_PLANES`, declared outside
`Command.cpp`). -/
def LUMP_PLANES : Nat := 1

/-- Modelled from the spec: index of the texture segment (`LUMP_TEXTURES`, declared outside
`Command.cpp`). -/
def LUMP_TEXTURES : Nat := 2

/-- Modelled from the spec: index of the vertex segment (`LUMP_VERTICES`, declared outside
`Command.cpp`). -/
def LUMP_VERTICES : Nat := 3

/-- Modelled from the spec: index of the visibility segment (`LUMP_VISIBILITY`, declared outside
`Command.cpp`). -/
def LUMP_VISIBILITY : Nat := 4

/-- Modelled from the spec: index of the node segment (`LUMP_NODES`, declared outside
`Command.cpp`). -/
def LUMP_NODES : Nat := 5

/-- Modelled from the spec: index of the tex-info segment (`LUMP_TEXINFO`, declared outside
`Command.cpp`). -/
def LUMP_TEXINFO : Nat := 6

/-- Modelled from the spec: index of the face segment (`LUMP_FACES`, declared outside
`Command.cpp`). -/
def LUMP_FACES : Nat := 7

/-- Modelled from the spec: index of the lighting segment (`LUMP_LIGHTING`, declared outside
`Command.cpp`). -/
def LUMP_LIGHTING : Nat := 8

/-- Modelled from the spec: index of the clip-node segment (`LUMP_CLIPNODES`, declared outside
`Command.cpp`). -/
def LUMP_CLIPNODES : Nat := 9

/-- Modelled from the spec: index of the leaf segment (`LUMP_LEAVES`, declared outside
`Command.cpp`). -/
def LUMP_LEAVES : Nat := 10

/-- Modelled from the spec: index of the mark-surface segment (`LUMP_MARKSURFACES`, declared outside
`Command.cpp`). -/
def LUMP_MARKSURFACES : Nat := 11

/-- Modelled from the spec: index of the edge segment (`LUMP_EDGES`, declared outside
`Command.cpp`). -/
def LUMP_EDGES : Nat := 12

/-- Modelled from the spec: index of the surface-edge segment (`LUMP_SURFEDGES`, declared outside
`Command.cpp`). -/
def LUMP_SURFEDGES : Nat := 13

/-- Modelled from the spec: index of the sub-model segment (`LUMP_MODELS`, declared outside
`Command.cpp`). -/
def LUMP_MODELS : Nat := 14

/-- Modelled from the spec: snapshot bit of the plane segment (`PLANES` of
`lump_copy_targets`, declared outside `Command.cpp`). -/
def PLANES : Nat := 1 <<< LUMP_PLANES

/-- Modelled from the spec: snapshot bit of the texture segment (`TEXTURES` of
`lump_copy_targets`, declared outside `Command.cpp`). -/
def TEXTURES : Nat := 1 <<< LUMP_TEXTURES

/-- Modelled from the spec: snapshot bit of the vertex segment (`VERTICES` of
`lump_copy_targets`, declared outside `Command.cpp`). -/
def VERTICES : Nat := 1 <<< LUMP_VERTICES

/-- Modelled from the spec: snapshot bit of the node segment (`NODES` of
`lump_copy_targets`, declared outside `Command.cpp`). -/
def NODES : Nat := 1 <<< LUMP_NODES

/-- Modelled from the spec: snapshot bit of the tex-info segment (`TEXINFO` of
`lump_copy_targets`, declared outside `Command.cpp`). -/
def TEXINFO : Nat := 1 <<< LUMP_TEXINFO

/-- Modelled from the spec: snapshot bit of the face segment (`FACES` of
`lump_copy_targets`, declared outside `Command.cpp`). -/
def FACES : Nat := 1 <<< LUMP_FACES

/-- Modelled from the spec: snapshot bit of the lighting segment (`LIGHTING` of
`lump_copy_targets`, declared outside `Command.cpp`). -/
def LIGHTING : Nat := 1 <<< LUMP_LIGHTING

/-- Modelled from the spec: snapshot bit of the clip-node segment (`CLIPNODES` of
`lump_copy_targets`, declared outside `Command.cpp`). -/
def CLIPNODES : Nat := 1 <<< LUMP_CLIPNODES

/-- Modelled from the spec: snapshot bit of the edge segment (`EDGES` of
`lump_copy_targets`, declared outside `Command.cpp`). -/
def EDGES : Nat := 1 <<< LUMP_EDGES

/-- Modelled from the spec: snapshot bit of the surface-edge segment (`SURFEDGES` of
`lump_copy_targets`, declared outside `Command.cpp`). -/
def SURFEDGES : Nat := 1 <<< LUMP_SURFEDGES

/-- Modelled from the spec: snapshot bit of the sub-model segment (`MODELS` of
`lump_copy_targets`, declared outside `Command.cpp`). -/
def MODELS : Nat := 1 <<< LUMP_MODELS

/-- Type `LumpState`: per segment kind an owned copy of the bytes, or `NULL` (`none`) for a
kind that is not part of the snapshot. -/
abbrev LumpState := List (Option Lump)

/-- Field `lumpLen[i]` of a snapshot: the byte length of the copy, `0` for an absent kind. -/
def LumpState.lumpLen (s : LumpState) (i : Nat) : Int :=
  match s.getD i none with
  | some bytes => (bytes.length : Int)
  | none => 0

/-- The state after `memset(&oldLumps, 0, sizeof(LumpState))`: no kind captured. -/
def LumpState.zero : LumpState := List.replicate HEADER_LUMPS none

/-- The loop `for (i = 0; i < HEADER_LUMPS; i++) size += lumps.lumpLen[i]`. -/
def LumpState.totalLen (s : LumpState) : Int :=
  ((List.range HEADER_LUMPS).map fun i => s.lumpLen i).sum

/-! ## The document -/

/-- Modelled from the spec: the `Bsp` document (declared outside `Command.cpp`): the
Segment Store (one byte buffer per kind) and the Entity Table. -/
structure Bsp where
  lumps : List Lump
  ents : List Entity
deriving DecidableEq, Repr

/-- Bytes of the segment of kind `k`. -/
def Bsp.lump (map : Bsp) (k : Nat) : Lump := map.lumps.getD k []

/-- Replace the segment of kind `k`. -/
def Bsp.setLump (map : Bsp) (k : Nat) (data : Lump) : Bsp :=
  { map with lumps := (List.range HEADER_LUMPS).map fun i => if i = k then data else map.lump i }

/-- Pointer `map->textures`: the texture segment. -/
def Bsp.textures (map : Bsp) : Lump := map.lump LUMP_TEXTURES

/-- Modelled from the spec: record size of the sub-model segment (`sizeof(BSPMODEL)`, declared
outside `Command.cpp`). -/
def sizeofBSPMODEL : Nat := 64

/-- Modelled from the spec: number of sub-models, the byte length of the sub-model segment
divided by its record size. -/
def Bsp.modelCount (map : Bsp) : Int := ((map.lump LUMP_MODELS).length / sizeofBSPMODEL : Nat)

/-- Modelled from the spec: `Bsp::duplicate_lumps` (defined outside `Command.cpp`),
`snapshot(kindMask)`: copy-out of the selected segment kinds. -/
def Bsp.duplicate_lumps (map : Bsp) (targets : Nat) : LumpState :=
  (List.range HEADER_LUMPS).map fun i => if targets.testBit i then some (map.lump i) else none

/-- Modelled from the spec: `Bsp::replace_lumps` (defined outside `Command.cpp`),
`restore(SegmentSnapshot)`: bulk copy-in of the captured kinds, the other kinds stay. -/
def Bsp.replace_lumps (map : Bsp) (state : LumpState) : Bsp :=
  { map with lumps := (List.range HEADER_LUMPS).map fun i =>
      match state.getD i none with
      | some bytes => bytes
      | none => map.lump i }

/-! ## Host application state -/

/-- The fields of `PickInfo` (declared outside `Command.cpp`) that the commands read or
write: the selected document, entity and sub-model, and the pointer to the selected entity
(`none` for `NULL`). -/
structure PickInfo where
  mapIdx : Int
  entIdx : Int
  modelIdx : Int
  ent : Option Entity
deriving DecidableEq, Repr

/-- One `BspRenderer` of `g_app->mapRenderers`: the renderer view of one open document. -/
structure BspRenderer where
  map : Bsp
deriving DecidableEq, Repr

/-- The part of `g_app` that the commands read or write. -/
structure Renderer where
  mapRenderers : List BspRenderer
  pickInfo : PickInfo
  pickCount : Int
deriving DecidableEq, Repr

/-- A `vec3`. Its `float` coordinates are carried as integers; no property proved here
depends on their arithmetic. -/
structure vec3 where
  x : Int
  y : Int
  z : Int
deriving DecidableEq, Repr

/-- Operations that are defined outside `Command.cpp` and whose result is left open.
`deselectObject` is `g_app->deselectObject()`, which clears the selection. `aaatrigger` is
the bundled fallback texture as decoded by `lodepng_decode24` (pixel bytes, width, height).
`cloneGeometry map modelIdx k` and `solidGeometry map mins maxs textureIdx k` are the bytes
of the geometry-bearing segment of kind `k` after `Bsp::duplicate_model` and
`Bsp::create_solid` have written their new records (the record layout is owned by the
document format); `solidModel` is the sub-model record that `Bsp::create_solid` writes. -/
structure Host where
  deselectObject : PickInfo → PickInfo
  aaatrigger : List Nat × Nat × Nat
  cloneGeometry : Bsp → Int → Nat → Lump
  solidGeometry : Bsp → vec3 → vec3 → Int → Nat → Lump
  solidModel : vec3 → vec3 → Int → Lump

/-- Write a document back to its slot (the commands mutate the document through the
pointer that `getBsp` returned). -/
def Renderer.setBsp (app : Renderer) (mapIdx : Int) (map : Bsp) : Renderer :=
  { app with mapRenderers := app.mapRenderers.set (toSizeT mapIdx) { map := map } }

/-! ## Command -/

/-- Base class `Command`. -/
structure Command where
  desc : String
  mapIdx : Int
deriving DecidableEq, Repr

/-- Function `Command::getBspRenderer`. -/
def Command.getBspRenderer (c : Command) (app : Renderer) : Option BspRenderer :=
  if c.mapIdx < 0 ∨ toSizeT c.mapIdx ≥ app.mapRenderers.length then none
  else app.mapRenderers.get? (toSizeT c.mapIdx)

/-- Function `Command::getBsp`. -/
def Command.getBsp (c : Command) (app : Renderer) : Option Bsp :=
  if c.mapIdx < 0 ∨ toSizeT c.mapIdx ≥ app.mapRenderers.length then none
  else (app.mapRenderers.get? (toSizeT c.mapIdx)).map fun r => r.map

/-! ## Edit entity -/

/-- Class `EditEntityCommand`. -/
structure EditEntityCommand extends Command where
  entIdx : Int
  oldEntData : Entity
  newEntData : Entity
deriving DecidableEq, Repr

/-- Constructor `EditEntityCommand::EditEntityCommand`. -/
def EditEntityCommand.new (desc : String) (pickInfo : PickInfo) (oldEntData newEntData : Entity) :
    EditEntityCommand :=
  { desc := desc, mapIdx := pickInfo.mapIdx, entIdx := pickInfo.entIdx,
    oldEntData := oldEntData, newEntData := newEntData }

/-- Function `EditEntityCommand::getEnt`: the live entity, `none` for `NULL`. -/
def EditEntityCommand.getEnt (c : EditEntityCommand) (app : Renderer) : Option Entity :=
  match c.getBsp app with
  | none => none
  | some map =>
    if c.entIdx < 0 ∨ toSizeT c.entIdx ≥ map.ents.length then none
    else map.ents.get? (toSizeT c.entIdx)

/-- The assignment `*target = *data` through the pointer returned by `getEnt`. -/
def EditEntityCommand.assign (c : EditEntityCommand) (app : Renderer) (data : Entity) :
    Option Renderer :=
  match c.getEnt app, c.getBsp app with
  | some _, some map =>
    some (app.setBsp c.mapIdx { map with ents := map.ents.set (toSizeT c.entIdx) data })
  | _, _ => none

/-- Function `EditEntityCommand::refresh`. -/
def EditEntityCommand.refresh (c : EditEntityCommand) (app : Renderer) : Option Renderer :=
  match c.getBspRenderer app, c.getEnt app with
  | some _, some _ => some { app with pickCount := app.pickCount + 1 }
  | _, _ => none

/-- Function `EditEntityCommand::execute`. -/
def EditEntityCommand.execute (c : EditEntityCommand) (app : Renderer) : Option Renderer :=
  (c.assign app c.newEntData).bind c.refresh

/-- Function `EditEntityCommand::undo`. -/
def EditEntityCommand.undo (c : EditEntityCommand) (app : Renderer) : Option Renderer :=
  (c.assign app c.oldEntData).bind c.refresh

/-! ## Delete entity -/

/-- Class `DeleteEntityCommand`. -/
structure DeleteEntityCommand extends Command where
  entIdx : Int
  entData : Entity
deriving DecidableEq, Repr

/-- Constructor `DeleteEntityCommand::DeleteEntityCommand`; it copies `*pickInfo.ent`. -/
def DeleteEntityCommand.new (desc : String) (pickInfo : PickInfo) : Option DeleteEntityCommand :=
  match pickInfo.ent with
  | none => none
  | some ent =>
    some { desc := desc, mapIdx := pickInfo.mapIdx, entIdx := pickInfo.entIdx, entData := ent }

/-- Function `DeleteEntityCommand::refresh`. -/
def DeleteEntityCommand.refresh (c : DeleteEntityCommand) (app : Renderer) : Option Renderer :=
  match c.getBspRenderer app with
  | none => none
  | some _ => some app

/-- Function `DeleteEntityCommand::execute`. -/
def DeleteEntityCommand.execute (host : Host) (c : DeleteEntityCommand) (app : Renderer) :
    Option Renderer :=
  let map := c.getBsp app
  let pickInfo :=
    if app.pickInfo.entIdx = c.entIdx then host.deselectObject app.pickInfo
    else if app.pickInfo.entIdx > c.entIdx then
      { app.pickInfo with entIdx := app.pickInfo.entIdx - 1 }
    else app.pickInfo
  match map with
  | none => none
  | some map =>
    if 0 ≤ c.entIdx ∧ c.entIdx < map.ents.length then
      c.refresh (({ app with pickInfo := pickInfo } : Renderer).setBsp c.mapIdx
        { map with ents := map.ents.eraseIdx c.entIdx.toNat })
    else none

/-- Function `DeleteEntityCommand::undo`. -/
def DeleteEntityCommand.undo (c : DeleteEntityCommand) (app : Renderer) : Option Renderer :=
  let map := c.getBsp app
  let pickInfo :=
    if app.pickInfo.entIdx ≥ c.entIdx then
      { app.pickInfo with entIdx := app.pickInfo.entIdx + 1 }
    else app.pickInfo
  match map with
  | none => none
  | some map =>
    if 0 ≤ c.entIdx ∧ c.entIdx ≤ map.ents.length then
      c.refresh (({ app with pickInfo := pickInfo } : Renderer).setBsp c.mapIdx
        { map with ents := map.ents.insertIdx c.entIdx.toNat c.entData })
    else none

/-! ## Create entity -/

/-- Class `CreateEntityCommand`. -/
structure CreateEntityCommand extends Command where
  entData : Entity
deriving DecidableEq, Repr

/-- Constructor `CreateEntityCommand::CreateEntityCommand`. -/
def CreateEntityCommand.new (desc : String) (mapIdx : Int) (entData : Entity) :
    CreateEntityCommand :=
  { desc := desc, mapIdx := mapIdx, entData := entData }

/-- Function `CreateEntityCommand::refresh`. -/
def CreateEntityCommand.refresh (c : CreateEntityCommand) (app : Renderer) : Option Renderer :=
  match c.getBspRenderer app with
  | none => none
  | some _ => some app

/-- Function `CreateEntityCommand::execute`. -/
def CreateEntityCommand.execute (c : CreateEntityCommand) (app : Renderer) : Option Renderer :=
  match c.getBsp app with
  | none => none
  | some map => c.refresh (app.setBsp c.mapIdx { map with ents := map.ents ++ [c.entData] })

/-- Function `CreateEntityCommand::undo`. The test `pickInfo.entIdx == map->ents.size() - 1` compares
an `int` with a `size_t`, so both sides are taken modulo `2^64`. -/
def CreateEntityCommand.undo (host : Host) (c : CreateEntityCommand) (app : Renderer) :
    Option Renderer :=
  match c.getBsp app with
  | none => none
  | some map =>
    let pickInfo :=
      if toSizeT app.pickInfo.entIdx = (map.ents.length + (2 ^ 64 - 1)) % 2 ^ 64 then
        host.deselectObject app.pickInfo
      else app.pickInfo
    if map.ents.length = 0 then none
    else
      c.refresh (({ app with pickInfo := pickInfo } : Renderer).setBsp c.mapIdx
        { map with ents := map.ents.dropLast })

/-! ## Geometry primitives of the document -/

/-- The four bytes of a 32-bit value, little endian. -/
def int32Bytes (x : Int) : List Nat :=
  [toUInt32 x % 256, toUInt32 x / 256 % 256, toUInt32 x / 65536 % 256,
    toUInt32 x / 16777216 % 256]

/-- The read `((int32_t*)buf)[k]`; `none` when it reaches past the end of the buffer. -/
def readInt32 (buf : Lump) (k : Nat) : Option Int :=
  match buf.get? (4 * k), buf.get? (4 * k + 1), buf.get? (4 * k + 2), buf.get? (4 * k + 3) with
  | some b0, some b1, some b2, some b3 =>
    some (toInt32 (b0 + 256 * b1 + 65536 * b2 + 16777216 * b3))
  | _, _, _, _ => none

/-- The test `strcmp(buf + off, lit) == 0` for a literal without NUL bytes: bytes are
compared in turn, up to the first difference or the terminating NUL; `none` when a read
reaches past the end of the buffer. -/
def strcmpEq (buf : Lump) : Nat → List Nat → Option Bool
  | off, [] =>
    match buf.get? off with
    | none => none
    | some b => some (b == 0)
  | off, ch :: rest =>
    match buf.get? off with
    | none => none
    | some b => if b = ch then strcmpEq buf (off + 1) rest else some false

/-- The bytes of a string literal. -/
def cstr (s : String) : List Nat := s.toList.map Char.toNat

/-- The loop of `CreateBspModelCommand::getDefaultTextureIdx`, with `n` iterations left
before the `uint` counter `i` reaches `totalTextures`. The name `szName` is the first field
of `BSPMIPTEX` (declared outside `Command.cpp`). -/
def getDefaultTextureIdxLoop (textures : Lump) : Nat → Nat → Option Int
  | 0, _ => some (-1)
  | n + 1, i =>
    match readInt32 textures (i + 1) with
    | none => none
    | some texOffset =>
      if texOffset < 0 then none
      else
        match strcmpEq textures texOffset.toNat (cstr "aaatrigger") with
        | none => none
        | some true => some (toInt32 i)
        | some false => getDefaultTextureIdxLoop textures n (i + 1)

/-- The body of `CreateBspModelCommand::getDefaultTextureIdx` on the resolved document. -/
def Bsp.getDefaultTextureIdx (map : Bsp) : Option Int :=
  match readInt32 map.textures 0 with
  | none => none
  | some totalTextures => getDefaultTextureIdxLoop map.textures (toUInt32 totalTextures) 0

/-- The offset table of the texture segment with every entry moved by four bytes. -/
def bumpOffsets : List Nat → List Nat
  | b0 :: b1 :: b2 :: b3 :: rest =>
    int32Bytes (toInt32 (b0 + 256 * b1 + 65536 * b2 + 16777216 * b3) + 4) ++ bumpOffsets rest
  | _ => []

/-- Modelled from the spec: `Bsp::add_texture` (defined outside `Command.cpp`),
`addTexture(name, pixels, w, h) -> index`: one texture is appended to the texture segment
(count, offset table, textures) and its index, the texture count before the call, is
returned. Only the texture segment changes. -/
def Bsp.add_texture (map : Bsp) (name : String) (data : List Nat) (width height : Nat) :
    Option (Bsp × Int) :=
  match readInt32 map.textures 0 with
  | none => none
  | some count =>
    let n := toUInt32 count
    let table := (map.textures.drop 4).take (4 * n)
    let body := map.textures.drop (4 + 4 * n)
    let miptex := (cstr name ++ List.replicate 16 0).take 16 ++ int32Bytes width ++
      int32Bytes height ++ data
    some (map.setLump LUMP_TEXTURES
      (int32Bytes (count + 1) ++ bumpOffsets table ++ int32Bytes (map.textures.length + 4) ++
        body ++ miptex), count)

/-- The geometry-bearing segment kinds other than the sub-model segment. -/
def geometryKinds : List Nat :=
  [LUMP_CLIPNODES, LUMP_EDGES, LUMP_FACES, LUMP_NODES, LUMP_PLANES, LUMP_SURFEDGES,
    LUMP_TEXINFO, LUMP_VERTICES, LUMP_LIGHTING]

/-- The document after a geometry mutation: the sub-model segment becomes `models`, the
other geometry-bearing segments become what `geometry` says, every other segment and the
entity table stay. -/
def Bsp.withGeometry (map : Bsp) (geometry : Nat → Lump) (models : Lump) : Bsp :=
  { map with lumps := (List.range HEADER_LUMPS).map fun i =>
      if i = LUMP_MODELS then models
      else if i ∈ geometryKinds then geometry i
      else map.lump i }

/-- One record slot of the sub-model segment holding `bytes`. -/
def modelRecord (bytes : Lump) : Lump :=
  (bytes ++ List.replicate sizeofBSPMODEL 0).take sizeofBSPMODEL

/-- Modelled from the spec: `Bsp::duplicate_model` (defined outside `Command.cpp`),
`duplicateSubModel(index) -> newIndex`: the source sub-model is duplicated into a newly
appended sub-model slot and the index of that slot, the sub-model count before the call, is
returned. An index that names no sub-model is a fault. -/
def Bsp.duplicate_model (host : Host) (map : Bsp) (modelIdx : Int) : Option (Bsp × Int) :=
  if 0 ≤ modelIdx ∧ modelIdx < map.modelCount then
    let models := map.lump LUMP_MODELS
    let record := (models.drop (modelIdx.toNat * sizeofBSPMODEL)).take sizeofBSPMODEL
    some (map.withGeometry (host.cloneGeometry map modelIdx) (models ++ modelRecord record),
      map.modelCount)
  else none

/-- Modelled from the spec: `Bsp::create_solid` (defined outside `Command.cpp`),
`createSolidSubModel(mins, maxs, textureIndex) -> newIndex`: a new solid sub-model is
appended and its index, the sub-model count before the call, is returned. -/
def Bsp.create_solid (host : Host) (map : Bsp) (mins maxs : vec3) (textureIdx : Int) :
    Bsp × Int :=
  (map.withGeometry (host.solidGeometry map mins maxs textureIdx)
    (map.lump LUMP_MODELS ++ modelRecord (host.solidModel mins maxs textureIdx)),
    map.modelCount)

/-- The local `dupLumps` of both `execute` functions: the kinds captured on the first run. -/
def dupLumps : Nat :=
  CLIPNODES ||| EDGES ||| FACES ||| NODES ||| PLANES ||| SURFEDGES ||| TEXINFO ||| VERTICES |||
    LIGHTING ||| MODELS

/-! ## Duplicate BSP model -/

/-- Class `DuplicateBspModelCommand`. -/
structure DuplicateBspModelCommand extends Command where
  oldModelIdx : Int
  newModelIdx : Int
  entIdx : Int
  initialized : Bool
  oldLumps : LumpState
deriving DecidableEq, Repr

/-- Constructor `DuplicateBspModelCommand::DuplicateBspModelCommand`. -/
def DuplicateBspModelCommand.new (desc : String) (pickInfo : PickInfo) :
    DuplicateBspModelCommand :=
  { desc := desc, mapIdx := pickInfo.mapIdx, oldModelIdx := pickInfo.modelIdx,
    newModelIdx := -1, entIdx := pickInfo.entIdx, initialized := false,
    oldLumps := LumpState.zero }

/-- Function `DuplicateBspModelCommand::execute`. -/
def DuplicateBspModelCommand.execute (host : Host) (c : DuplicateBspModelCommand)
    (app : Renderer) : Option (DuplicateBspModelCommand × Renderer) :=
  match c.getBsp app, c.getBspRenderer app with
  | some map, some _ =>
    if 0 ≤ c.entIdx ∧ c.entIdx < map.ents.length then
      let oldLumps := if !c.initialized then map.duplicate_lumps dupLumps else c.oldLumps
      match map.duplicate_model host c.oldModelIdx with
      | none => none
      | some (map1, newModelIdx) =>
        let ents := map1.ents.modify
          (fun ent => ent.setOrAddKeyvalue "model" ("*" ++ to_string newModelIdx)) c.entIdx.toNat
        some ({ c with oldLumps := oldLumps, initialized := true, newModelIdx := newModelIdx },
          { app.setBsp c.mapIdx { map1 with ents := ents } with
            pickInfo := host.deselectObject app.pickInfo })
    else none
  | _, _ => none

/-- Function `DuplicateBspModelCommand::undo`. -/
def DuplicateBspModelCommand.undo (host : Host) (c : DuplicateBspModelCommand)
    (app : Renderer) : Option (DuplicateBspModelCommand × Renderer) :=
  match c.getBsp app, c.getBspRenderer app with
  | some map, some _ =>
    if 0 ≤ c.entIdx ∧ c.entIdx < map.ents.length then
      let map1 := map.replace_lumps c.oldLumps
      let ents := map1.ents.modify
        (fun ent => ent.setOrAddKeyvalue "model" ("*" ++ to_string c.oldModelIdx)) c.entIdx.toNat
      let pickInfo :=
        if app.pickInfo.modelIdx = c.newModelIdx then
          { app.pickInfo with modelIdx := c.oldModelIdx }
        else if app.pickInfo.modelIdx > c.newModelIdx then
          { app.pickInfo with modelIdx := app.pickInfo.modelIdx - 1 }
        else app.pickInfo
      some (c, { app.setBsp c.mapIdx { map1 with ents := ents } with
        pickInfo := host.deselectObject pickInfo })
    else none
  | _, _ => none

/-! ## Create BSP model -/

/-- Class `CreateBspModelCommand`. -/
structure CreateBspModelCommand extends Command where
  entData : Entity
  size : Int
  initialized : Bool
  oldLumps : LumpState
deriving DecidableEq, Repr

/-- Constructor `CreateBspModelCommand::CreateBspModelCommand`. -/
def CreateBspModelCommand.new (desc : String) (mapIdx : Int) (entData : Entity) (size : Int) :
    CreateBspModelCommand :=
  { desc := desc, mapIdx := mapIdx, entData := entData, size := size, initialized := false,
    oldLumps := LumpState.zero }

/-- Function `CreateBspModelCommand::getDefaultTextureIdx`. -/
def CreateBspModelCommand.getDefaultTextureIdx (c : CreateBspModelCommand) (app : Renderer) :
    Option Int :=
  match c.getBsp app with
  | none => none
  | some map => map.getDefaultTextureIdx

/-- Function `CreateBspModelCommand::addDefaultTexture`: the document with the fallback
texture added, and the index of that texture. The debug image file that the source also writes
is outside the document. -/
def CreateBspModelCommand.addDefaultTexture (host : Host) (c : CreateBspModelCommand)
    (app : Renderer) : Option (Renderer × Int) :=
  match c.getBsp app with
  | none => none
  | some map =>
    match map.add_texture "aaatrigger" host.aaatrigger.1 host.aaatrigger.2.1
        host.aaatrigger.2.2 with
    | none => none
    | some (map1, aaatriggerIdx) => some (app.setBsp c.mapIdx map1, aaatriggerIdx)

/-- Function `CreateBspModelCommand::execute`. -/
def CreateBspModelCommand.execute (host : Host) (c : CreateBspModelCommand) (app : Renderer) :
    Option (CreateBspModelCommand × Renderer) :=
  match c.getBsp app, c.getBspRenderer app, c.getDefaultTextureIdx app with
  | some map, some _, some aaatriggerIdx =>
    let targets := if aaatriggerIdx = -1 then dupLumps ||| TEXTURES else dupLumps
    let oldLumps := if !c.initialized then map.duplicate_lumps targets else c.oldLumps
    let textured :=
      if aaatriggerIdx = -1 then c.addDefaultTexture host app else some (app, aaatriggerIdx)
    match textured with
    | none => none
    | some (app1, aaatriggerIdx1) =>
      match c.getBsp app1 with
      | none => none
      | some map1 =>
        let mins : vec3 := ⟨-c.size, -c.size, -c.size⟩
        let maxs : vec3 := ⟨c.size, c.size, c.size⟩
        let solid := map1.create_solid host mins maxs aaatriggerIdx1
        let entData :=
          if !c.initialized then c.entData.addKeyvalue "model" ("*" ++ to_string solid.2)
          else c.entData
        some ({ c with entData := entData, oldLumps := oldLumps, initialized := true },
          { app1.setBsp c.mapIdx { solid.1 with ents := solid.1.ents ++ [entData] } with
            pickInfo := host.deselectObject app1.pickInfo })
  | _, _, _ => none

/-- Function `CreateBspModelCommand::undo`. -/
def CreateBspModelCommand.undo (host : Host) (c : CreateBspModelCommand) (app : Renderer) :
    Option (CreateBspModelCommand × Renderer) :=
  match c.getBsp app, c.getBspRenderer app with
  | some map, some _ =>
    let map1 := map.replace_lumps c.oldLumps
    if map1.ents.length = 0 then none
    else
      some (c, { app.setBsp c.mapIdx { map1 with ents := map1.ents.dropLast } with
        pickInfo := host.deselectObject app.pickInfo })
  | _, _ => none

/-! ## Edit BSP model -/

/-- Class `EditBspModelCommand`; the two snapshots are supplied by the caller. -/
structure EditBspModelCommand extends Command where
  modelIdx : Int
  entIdx : Int
  oldLumps : LumpState
  newLumps : LumpState
  oldOrigin : vec3
  newOrigin : vec3
deriving DecidableEq, Repr

/-! ## Memory accounting -/

/-- The `sizeof` values that the `memoryUsage` functions add, fixed by the compiler. -/
structure Sizes where
  editEntityCommand : Nat
  deleteEntityCommand : Nat
  createEntityCommand : Nat
  duplicateBspModelCommand : Nat

/-- Function `EditEntityCommand::memoryUsage`. -/
def EditEntityCommand.memoryUsage (sz : Sizes) (c : EditEntityCommand) : Int :=
  sz.editEntityCommand + c.oldEntData.getMemoryUsage + c.newEntData.getMemoryUsage

/-- Function `DeleteEntityCommand::memoryUsage`. -/
def DeleteEntityCommand.memoryUsage (sz : Sizes) (c : DeleteEntityCommand) : Int :=
  sz.deleteEntityCommand + c.entData.getMemoryUsage

/-- Function `CreateEntityCommand::memoryUsage`. -/
def CreateEntityCommand.memoryUsage (sz : Sizes) (c : CreateEntityCommand) : Int :=
  sz.createEntityCommand + c.entData.getMemoryUsage

/-- Function `DuplicateBspModelCommand::memoryUsage`. -/
def DuplicateBspModelCommand.memoryUsage (sz : Sizes) (c : DuplicateBspModelCommand) : Int :=
  sz.duplicateBspModelCommand + c.oldLumps.totalLen

/-- Function `CreateBspModelCommand::memoryUsage`; it starts from `sizeof(DuplicateBspModelCommand)`
and adds the snapshot lengths only. -/
def CreateBspModelCommand.memoryUsage (sz : Sizes) (c : CreateBspModelCommand) : Int :=
  sz.duplicateBspModelCommand + c.oldLumps.totalLen

/-- Function `EditBspModelCommand::memoryUsage`; the loop adds both snapshot lengths per kind. -/
def EditBspModelCommand.memoryUsage (sz : Sizes) (c : EditBspModelCommand) : Int :=
  sz.duplicateBspModelCommand +
    ((List.range HEADER_LUMPS).map fun i => c.oldLumps.lumpLen i + c.newLumps.lumpLen i).sum

/-- What a `CreateBspModelCommand` privately owns: its snapshot and its entity template. -/
def CreateBspModelCommand.ownedBytes (c : CreateBspModelCommand) : Int :=
  c.oldLumps.totalLen + c.entData.getMemoryUsage

/-- The selection update at the head of `DeleteEntityCommand::execute`. -/
def DeleteEntityCommand.pickAfterExecute (host : Host) (c : DeleteEntityCommand)
    (p : PickInfo) : PickInfo :=
  if p.entIdx = c.entIdx then host.deselectObject p
  else if p.entIdx > c.entIdx then { p with entIdx := p.entIdx - 1 }
  else p

/-- The selection update at the head of `DeleteEntityCommand::undo`. -/
def DeleteEntityCommand.pickAfterUndo (c : DeleteEntityCommand) (p : PickInfo) : PickInfo :=
  if p.entIdx ≥ c.entIdx then { p with entIdx := p.entIdx + 1 } else p

/-- The selection update at the head of `CreateEntityCommand::undo`, for a table of `n`
entities. -/
def CreateEntityCommand.pickAfterUndo (host : Host) (n : Nat) (p : PickInfo) : PickInfo :=
  if toSizeT p.entIdx = (n + (2 ^ 64 - 1)) % 2 ^ 64 then host.deselectObject p else p

/-! ## Sample data -/

def entA : Entity := ⟨[("classname", "info_player_start")]⟩

def entB : Entity := ⟨[("classname", "light"), ("origin", "0 0 64")]⟩

def entC : Entity := ⟨[("classname", "func_door"), ("model", "*1")]⟩

/-- A document with the entity table `[A, B, C]`. -/
def sampleMap : Bsp := { lumps := [], ents := [entA, entB, entC] }

/-- A host whose `deselectObject` resets the selected entity and sub-model. -/
def sampleHost : Host :=
  { deselectObject := fun p => { p with entIdx := -1, modelIdx := -1, ent := none },
    aaatrigger := ([255, 0, 255], 1, 1),
    cloneGeometry := fun map modelIdx k => map.lump k ++ int32Bytes modelIdx,
    solidGeometry := fun map mins maxs textureIdx k =>
      map.lump k ++ int32Bytes mins.x ++ int32Bytes maxs.x ++ int32Bytes textureIdx,
    solidModel := fun mins maxs _ =>
      int32Bytes mins.x ++ int32Bytes mins.y ++ int32Bytes mins.z ++
        int32Bytes maxs.x ++ int32Bytes maxs.y ++ int32Bytes maxs.z }

/-- One open document, entity 2 (`C`) selected. -/
def sampleApp : Renderer :=
  { mapRenderers := [{ map := sampleMap }], pickInfo := ⟨0, 2, 1, some entC⟩, pickCount := 0 }

/-- No open document. -/
def emptyApp : Renderer :=
  { mapRenderers := [], pickInfo := ⟨0, 2, 1, none⟩, pickCount := 0 }

/-- The command deleting entity 0 (`A`) of the sample document. -/
def sampleDelete : DeleteEntityCommand :=
  { desc := "Delete Entity", mapIdx := 0, entIdx := 0, entData := entA }

/-- An edit of entity 1 (`B`) of the sample document. -/
def sampleEdit : EditEntityCommand :=
  EditEntityCommand.new "Edit Keyvalue" ⟨0, 1, -1, some entB⟩ entB
    ⟨[("classname", "light"), ("origin", "0 0 128")]⟩

/-- An edit whose entity index (5) is past the end of the sample table. -/
def staleEdit : EditEntityCommand :=
  EditEntityCommand.new "Edit Keyvalue" ⟨0, 5, -1, some entB⟩ entB entA

/-- An edit whose entity index is negative. -/
def negativeEdit : EditEntityCommand :=
  EditEntityCommand.new "Edit Keyvalue" ⟨0, -1, -1, none⟩ entB entA

/-- A creation command for the sample document. -/
def sampleCreate : CreateEntityCommand := CreateEntityCommand.new "Create Entity" 0 entB

/-- A segment store with no texture and two sub-models. -/
def geomMap : Bsp :=
  { lumps := [[], [1], [0, 0, 0, 0], [3], [], [5], [6], [7], [8], [9], [], [], [12], [13],
      List.replicate 128 0],
    ents := [entA, entB, entC] }

/-- A segment store whose single texture is named "aaatrigger", with two sub-models. -/
def texturedMap : Bsp :=
  { lumps := [[], [1], [1, 0, 0, 0, 8, 0, 0, 0] ++ cstr "aaatrigger" ++ [0, 0, 0, 0, 0, 0],
      [3], [], [5], [6], [7], [8], [9], [], [], [12], [13], List.replicate 128 0],
    ents := [entA, entB, entC] }

/-- Two open documents: `geomMap` and `texturedMap`. -/
def geomApp : Renderer :=
  { mapRenderers := [{ map := geomMap }, { map := texturedMap }],
    pickInfo := ⟨0, 2, 1, some entC⟩, pickCount := 0 }

/-- Duplication of sub-model 1 of `geomMap` for entity 2 (`C`). -/
def sampleDuplicate : DuplicateBspModelCommand :=
  DuplicateBspModelCommand.new "Duplicate BSP Model" ⟨0, 2, 1, some entC⟩

/-- The entity template of the sample model creation. -/
def triggerTemplate : Entity := ⟨[("classname", "trigger_once")]⟩

/-- The `sizeof` values used in the samples. -/
def sampleSizes : Sizes :=
  { editEntityCommand := 72, deleteEntityCommand := 64, createEntityCommand := 56,
    duplicateBspModelCommand := 248 }

/-- An entity whose single value is `n + 1` bytes long. -/
def bigEntity (n : Nat) : Entity := ⟨[("message", String.mk (List.replicate (n + 1) 'a'))]⟩

/-- Runs a list of calls on a `DuplicateBspModelCommand`: `true` is `execute()`, `false` is
`undo()`. -/
def DuplicateBspModelCommand.run (host : Host) :
    List Bool → DuplicateBspModelCommand × Renderer →
      Option (DuplicateBspModelCommand × Renderer)
  | [], s => some s
  | true :: ops, s => (s.1.execute host s.2).bind (DuplicateBspModelCommand.run host ops)
  | false :: ops, s => (s.1.undo host s.2).bind (DuplicateBspModelCommand.run host ops)

/-- Runs a list of calls on a `CreateBspModelCommand`: `true` is `execute()`, `false` is
`undo()`. -/
def CreateBspModelCommand.run (host : Host) :
    List Bool → CreateBspModelCommand × Renderer → Option (CreateBspModelCommand × Renderer)
  | [], s => some s
  | true :: ops, s => (s.1.execute host s.2).bind (CreateBspModelCommand.run host ops)
  | false :: ops, s => (s.1.undo host s.2).bind (CreateBspModelCommand.run host ops)

/-- The kinds named by `dupLumps`. -/
def dupKinds : List Nat :=
  [LUMP_CLIPNODES, LUMP_EDGES, LUMP_FACES, LUMP_NODES, LUMP_PLANES, LUMP_SURFEDGES,
    LUMP_TEXINFO, LUMP_VERTICES, LUMP_LIGHTING, LUMP_MODELS]

/-- The creation of a solid sub-model in the sample document without texture. -/
def sampleCreateModel : CreateBspModelCommand :=
  CreateBspModelCommand.new "Create Model" 0 triggerTemplate 16

/-- The calls `execute(); undo(); execute(); undo()` on the sample duplication. -/
def sampleDuplicateRun : Option (DuplicateBspModelCommand × Renderer) :=
  DuplicateBspModelCommand.run sampleHost [true, false, true, false] (sampleDuplicate, geomApp)

/-- The calls `execute(); undo(); execute(); undo()` on the sample model creation. -/
def sampleCreateModelRun : Option (CreateBspModelCommand × Renderer) :=
  CreateBspModelCommand.run sampleHost [true, false, true, false] (sampleCreateModel, geomApp)

/-! ## Lemmas on document resolution -/

theorem getBsp_eq_some_iff (c : Command) (app : Renderer) (map : Bsp) :
    c.getBsp app = some map ↔
      0 ≤ c.mapIdx ∧ toSizeT c.mapIdx < app.mapRenderers.length ∧
        app.mapRenderers.get? (toSizeT c.mapIdx) = some { map := map } := by
  unfold Command.getBsp
  by_cases h : c.mapIdx < 0 ∨ toSizeT c.mapIdx ≥ app.mapRenderers.length
  · rw [if_pos h]
    constructor
    · intro h'
      cases h'
    · rintro ⟨h0, h1, _⟩
      rcases h with h | h <;> omega
  · rw [if_neg h]
    have h0 : 0 ≤ c.mapIdx := by omega
    have h1 : toSizeT c.mapIdx < app.mapRenderers.length := by omega
    constructor
    · intro h'
      refine ⟨h0, h1, ?_⟩
      cases hg : app.mapRenderers.get? (toSizeT c.mapIdx) with
      | none => rw [hg] at h'; cases h'
      | some r =>
        rw [hg] at h'
        cases r
        simp at h'
        simp [h']
    · rintro ⟨_, _, hg⟩
      rw [hg]
      rfl

theorem getBspRenderer_of_getBsp (c : Command) (app : Renderer) (map : Bsp)
    (h : c.getBsp app = some map) : c.getBspRenderer app = some { map := map } := by
  obtain ⟨h0, h1, hg⟩ := (getBsp_eq_some_iff c app map).1 h
  unfold Command.getBspRenderer
  rw [if_neg (by omega), hg]

theorem getBsp_setBsp (c : Command) (app : Renderer) (map map' : Bsp)
    (h : c.getBsp app = some map) : c.getBsp (app.setBsp c.mapIdx map') = some map' := by
  obtain ⟨h0, h1, _⟩ := (getBsp_eq_some_iff c app map).1 h
  rw [getBsp_eq_some_iff]
  refine ⟨h0, ?_, ?_⟩
  · simpa [Renderer.setBsp] using h1
  · simp [Renderer.setBsp, List.getElem?_set, h1]

theorem getBsp_pickInfo (c : Command) (app : Renderer) (p : PickInfo) :
    c.getBsp ({ app with pickInfo := p } : Renderer) = c.getBsp app := rfl

theorem setBsp_pickInfo (app : Renderer) (mapIdx : Int) (map : Bsp) :
    (app.setBsp mapIdx map).pickInfo = app.pickInfo := rfl

theorem setBsp_setBsp (app : Renderer) (mapIdx : Int) (m1 m2 : Bsp) :
    (app.setBsp mapIdx m1).setBsp mapIdx m2 = app.setBsp mapIdx m2 := by
  simp [Renderer.setBsp]

theorem setBsp_self (c : Command) (app : Renderer) (map : Bsp)
    (h : c.getBsp app = some map) : app.setBsp c.mapIdx map = app := by
  obtain ⟨_, h1, hg⟩ := (getBsp_eq_some_iff c app map).1 h
  cases app with
  | mk rs pk pc =>
    simp only [Renderer.setBsp]
    congr 1
    apply List.ext_get?
    intro n
    by_cases hn : n = toSizeT c.mapIdx
    · subst hn
      simp only [List.get?_eq_getElem?] at hg ⊢
      rw [List.getElem?_set_self h1, hg]
    · simp only [List.get?_eq_getElem?]
      rw [List.getElem?_set_ne (Ne.symm hn)]

theorem insertIdx_eraseIdx_get (l : List Entity) (n : Nat) (e : Entity)
    (h : l.get? n = some e) : (l.eraseIdx n).insertIdx n e = l := by
  induction l generalizing n with
  | nil => simp at h
  | cons a t ih =>
    cases n with
    | zero =>
      simp at h
      simp [h]
    | succ m =>
      simp at h
      simp [List.insertIdx_succ_cons, ih m (by simpa using h)]

theorem getBsp_of_mapRenderers (c : Command) (a b : Renderer)
    (h : a.mapRenderers = b.mapRenderers) : c.getBsp a = c.getBsp b := by
  unfold Command.getBsp
  rw [h]

theorem getBsp_setBsp_pick (c : Command) (app : Renderer) (p : PickInfo) (map map' : Bsp)
    (h : c.getBsp app = some map) :
    c.getBsp (({ app with pickInfo := p } : Renderer).setBsp c.mapIdx map') = some map' :=
  getBsp_setBsp c _ map map' ((getBsp_of_mapRenderers c _ app rfl).trans h)

/-! ## Delete entity: the executed and undone states -/

theorem DeleteEntityCommand_refresh_of_getBsp (c : DeleteEntityCommand) (app : Renderer)
    (map : Bsp) (h : c.getBsp app = some map) : c.refresh app = some app := by
  unfold DeleteEntityCommand.refresh
  rw [getBspRenderer_of_getBsp _ _ _ h]

theorem DeleteEntityCommand_execute_eq (host : Host) (c : DeleteEntityCommand) (app : Renderer)
    (map : Bsp) (hmap : c.getBsp app = some map)
    (hidx : 0 ≤ c.entIdx ∧ c.entIdx < map.ents.length) :
    c.execute host app =
      some (({ app with pickInfo := c.pickAfterExecute host app.pickInfo } : Renderer).setBsp
        c.mapIdx { map with ents := map.ents.eraseIdx c.entIdx.toNat }) := by
  unfold DeleteEntityCommand.execute
  simp only [hmap, hidx, and_self, if_true]
  exact DeleteEntityCommand_refresh_of_getBsp c _ _ (getBsp_setBsp_pick _ _ _ map _ hmap)

theorem DeleteEntityCommand_undo_eq (c : DeleteEntityCommand) (app : Renderer)
    (map : Bsp) (hmap : c.getBsp app = some map)
    (hidx : 0 ≤ c.entIdx ∧ c.entIdx ≤ map.ents.length) :
    c.undo app =
      some (({ app with pickInfo := c.pickAfterUndo app.pickInfo } : Renderer).setBsp
        c.mapIdx { map with ents := map.ents.insertIdx c.entIdx.toNat c.entData }) := by
  unfold DeleteEntityCommand.undo
  simp only [hmap, hidx, and_self, if_true]
  exact DeleteEntityCommand_refresh_of_getBsp c _ _ (getBsp_setBsp_pick _ _ _ map _ hmap)

/-- The state reached by `execute()` then `undo()` of a `DeleteEntityCommand` whose saved
entity is the one stored at its index. -/
theorem DeleteEntityCommand_execute_undo_eq (host : Host) (c : DeleteEntityCommand)
    (app : Renderer) (map : Bsp) (hmap : c.getBsp app = some map)
    (hidx : 0 ≤ c.entIdx ∧ c.entIdx < map.ents.length)
    (hget : map.ents.get? c.entIdx.toNat = some c.entData) :
    (c.execute host app).bind c.undo =
      some { app with pickInfo := c.pickAfterUndo (c.pickAfterExecute host app.pickInfo) } := by
  have hlt : c.entIdx.toNat < map.ents.length := by omega
  rw [DeleteEntityCommand_execute_eq host c app map hmap hidx, Option.some_bind]
  have hmap1 := getBsp_setBsp_pick c.toCommand app (c.pickAfterExecute host app.pickInfo) map
    { map with ents := map.ents.eraseIdx c.entIdx.toNat } hmap
  have hidx2 : 0 ≤ c.entIdx ∧
      c.entIdx ≤ (({ map with ents := map.ents.eraseIdx c.entIdx.toNat } : Bsp).ents.length) := by
    simp only [List.length_eraseIdx, hlt, if_true]
    omega
  rw [DeleteEntityCommand_undo_eq c _ _ hmap1 hidx2]
  have hback : ({ map with ents :=
      (map.ents.eraseIdx c.entIdx.toNat).insertIdx c.entIdx.toNat c.entData } : Bsp) = map := by
    rw [insertIdx_eraseIdx_get _ _ _ hget]
  have hrs : (app.mapRenderers.set (toSizeT c.mapIdx)
        { map := { map with ents := map.ents.eraseIdx c.entIdx.toNat } }).set
        (toSizeT c.mapIdx) { map := map } = app.mapRenderers := by
    have := congrArg Renderer.mapRenderers (setBsp_self c.toCommand app map hmap)
    rw [List.set_set]
    exact this
  simp only [Renderer.setBsp, hback, hrs]

/-- C1: for every entity table and every index valid in it, a `DeleteEntityCommand` built
from that index and a copy of the entity stored there runs `execute()` and then `undo()`
without fault, and the document it leaves is the original one: the entity table has the
same length and the same entities in the same order, the saved entity back at its index. -/
theorem DeleteEntityCommand_execute_undo_roundtrip (host : Host) (desc : String)
    (pick : PickInfo) (c : DeleteEntityCommand) (app : Renderer) (map : Bsp)
    (hnew : DeleteEntityCommand.new desc pick = some c)
    (hmap : c.getBsp app = some map)
    (hidx : 0 ≤ pick.entIdx ∧ pick.entIdx < map.ents.length)
    (hent : pick.ent = map.ents.get? pick.entIdx.toNat) :
    ∃ app1 app2 : Renderer,
      c.execute host app = some app1 ∧
      c.getBsp app1 = some { map with ents := map.ents.eraseIdx pick.entIdx.toNat } ∧
      c.undo app1 = some app2 ∧
      c.getBsp app2 = some map ∧
      app2.mapRenderers = app.mapRenderers ∧
      map.ents.get? pick.entIdx.toNat = some c.entData := by
  have hc : c.entIdx = pick.entIdx ∧ pick.ent = some c.entData := by
    unfold DeleteEntityCommand.new at hnew
    cases hp : pick.ent with
    | none => rw [hp] at hnew; cases hnew
    | some e =>
      rw [hp] at hnew
      cases hnew
      exact ⟨rfl, rfl⟩
  obtain ⟨hci, hce⟩ := hc
  have hget : map.ents.get? c.entIdx.toNat = some c.entData := by
    rw [hci, ← hent, hce]
  have hidx1 : 0 ≤ c.entIdx ∧ c.entIdx < map.ents.length := by rw [hci]; exact hidx
  have hex := DeleteEntityCommand_execute_eq host c app map hmap hidx1
  have hboth := DeleteEntityCommand_execute_undo_eq host c app map hmap hidx1 hget
  rw [hex, Option.some_bind] at hboth
  refine ⟨_, _, hex, ?_, hboth, ?_, rfl, ?_⟩
  · rw [← hci]
    exact getBsp_setBsp_pick _ _ _ map _ hmap
  · exact (getBsp_of_mapRenderers _ _ app rfl).trans hmap
  · rw [← hci]; exact hget

/-- Witness for C1: the sample table `[A, B, C]` and the command deleting `A`. -/
theorem DeleteEntityCommand_execute_undo_roundtrip_witness :
    ∃ app1 app2 : Renderer,
      sampleDelete.execute sampleHost sampleApp = some app1 ∧
      sampleDelete.getBsp app1 =
        some { sampleMap with ents := sampleMap.ents.eraseIdx (0 : Int).toNat } ∧
      sampleDelete.undo app1 = some app2 ∧
      sampleDelete.getBsp app2 = some sampleMap ∧
      app2.mapRenderers = sampleApp.mapRenderers ∧
      sampleMap.ents.get? (0 : Int).toNat = some sampleDelete.entData :=
  DeleteEntityCommand_execute_undo_roundtrip sampleHost "Delete Entity" ⟨0, 0, -1, some entA⟩
    sampleDelete sampleApp sampleMap (by rfl) (by decide) (by decide) (by rfl)

/-- C2: for a command deleting index `i` of a present document and a selection `s`,
`execute()` clears the selection when `s = i`, sets it to `s - 1` when `s > i` and leaves it
unchanged when `s < i`; and whenever `s ≠ i`, `undo()` right after `execute()` returns the
selection to what it was. -/
theorem DeleteEntityCommand_selection_renumbering (host : Host) (c : DeleteEntityCommand)
    (app : Renderer) (map : Bsp) (hmap : c.getBsp app = some map)
    (hidx : 0 ≤ c.entIdx ∧ c.entIdx < map.ents.length) :
    ∃ app1 : Renderer,
      c.execute host app = some app1 ∧
      (app.pickInfo.entIdx = c.entIdx → app1.pickInfo = host.deselectObject app.pickInfo) ∧
      (app.pickInfo.entIdx > c.entIdx →
        app1.pickInfo = { app.pickInfo with entIdx := app.pickInfo.entIdx - 1 }) ∧
      (app.pickInfo.entIdx < c.entIdx → app1.pickInfo = app.pickInfo) ∧
      (app.pickInfo.entIdx ≠ c.entIdx →
        ∃ app2 : Renderer, c.undo app1 = some app2 ∧ app2.pickInfo = app.pickInfo) := by
  have hlt : c.entIdx.toNat < map.ents.length := by omega
  have hex := DeleteEntityCommand_execute_eq host c app map hmap hidx
  have hmap1 := getBsp_setBsp_pick c.toCommand app (c.pickAfterExecute host app.pickInfo) map
    { map with ents := map.ents.eraseIdx c.entIdx.toNat } hmap
  have hidx2 : 0 ≤ c.entIdx ∧
      c.entIdx ≤ (({ map with ents := map.ents.eraseIdx c.entIdx.toNat } : Bsp).ents.length) := by
    simp only [List.length_eraseIdx, hlt, if_true]
    omega
  have hun := DeleteEntityCommand_undo_eq c _ _ hmap1 hidx2
  refine ⟨_, hex, ?_, ?_, ?_, ?_⟩
  · intro h
    simp [Renderer.setBsp, DeleteEntityCommand.pickAfterExecute, h]
  · intro h
    have hne : app.pickInfo.entIdx ≠ c.entIdx := by omega
    simp [Renderer.setBsp, DeleteEntityCommand.pickAfterExecute, h, hne]
  · intro h
    have hne : app.pickInfo.entIdx ≠ c.entIdx := by omega
    have hng : ¬ app.pickInfo.entIdx > c.entIdx := by omega
    simp only [Renderer.setBsp, DeleteEntityCommand.pickAfterExecute, hne, hng, if_false]
  · intro hne
    refine ⟨_, hun, ?_⟩
    simp only [Renderer.setBsp, DeleteEntityCommand.pickAfterExecute, hne, if_false]
    by_cases hgt : app.pickInfo.entIdx > c.entIdx
    · have h1 : app.pickInfo.entIdx - 1 ≥ c.entIdx := by omega
      simp only [hgt, if_true, DeleteEntityCommand.pickAfterUndo, h1]
      cases hp : app.pickInfo
      simp
    · have h1 : ¬ app.pickInfo.entIdx ≥ c.entIdx := by omega
      simp only [hgt, if_false, DeleteEntityCommand.pickAfterUndo, h1]

/-- Witness for C2: table `[A, B, C]`, selection 2, delete index 0. -/
theorem DeleteEntityCommand_selection_renumbering_witness :
    ∃ app1 : Renderer,
      sampleDelete.execute sampleHost sampleApp = some app1 ∧
      (sampleApp.pickInfo.entIdx = sampleDelete.entIdx →
        app1.pickInfo = sampleHost.deselectObject sampleApp.pickInfo) ∧
      (sampleApp.pickInfo.entIdx > sampleDelete.entIdx →
        app1.pickInfo = { sampleApp.pickInfo with entIdx := sampleApp.pickInfo.entIdx - 1 }) ∧
      (sampleApp.pickInfo.entIdx < sampleDelete.entIdx → app1.pickInfo = sampleApp.pickInfo) ∧
      (sampleApp.pickInfo.entIdx ≠ sampleDelete.entIdx →
        ∃ app2 : Renderer, sampleDelete.undo app1 = some app2 ∧
          app2.pickInfo = sampleApp.pickInfo) :=
  DeleteEntityCommand_selection_renumbering sampleHost sampleDelete sampleApp sampleMap
    (by decide) (by decide)

/-- The example of the specification: table `[A, B, C]`, selection 2, delete index 0; the
selection is 1 after `execute()` and 2 after `undo()`, and the table is `[A, B, C]` again. -/
theorem DeleteEntityCommand_selection_example :
    ((sampleDelete.execute sampleHost sampleApp).map fun a => a.pickInfo.entIdx) = some 1 ∧
    (sampleDelete.execute sampleHost sampleApp).bind sampleDelete.undo = some sampleApp := by
  decide

/-! ## Edit entity -/

theorem toSizeT_eq (x : Int) (h0 : 0 ≤ x) (h1 : x < 2 ^ 64) : toSizeT x = x.toNat := by
  unfold toSizeT
  omega

theorem EditEntityCommand_getEnt_of_valid (c : EditEntityCommand) (app : Renderer) (map : Bsp)
    (hmap : c.getBsp app = some map) (hint : isInt c.entIdx)
    (hidx : 0 ≤ c.entIdx ∧ c.entIdx < map.ents.length) :
    c.getEnt app = map.ents.get? c.entIdx.toNat ∧ (c.getEnt app).isSome = true := by
  have hsz : toSizeT c.entIdx = c.entIdx.toNat :=
    toSizeT_eq _ hidx.1 (by unfold isInt at hint; omega)
  have hlt : c.entIdx.toNat < map.ents.length := by omega
  unfold EditEntityCommand.getEnt
  rw [hmap]
  simp only [hsz]
  rw [if_neg (by omega)]
  refine ⟨rfl, ?_⟩
  rw [List.get?_eq_get hlt]
  rfl

theorem EditEntityCommand_refresh_of_valid (c : EditEntityCommand) (app : Renderer) (map : Bsp)
    (hmap : c.getBsp app = some map) (hint : isInt c.entIdx)
    (hidx : 0 ≤ c.entIdx ∧ c.entIdx < map.ents.length) :
    c.refresh app = some { app with pickCount := app.pickCount + 1 } := by
  obtain ⟨_, hsome⟩ := EditEntityCommand_getEnt_of_valid c app map hmap hint hidx
  unfold EditEntityCommand.refresh
  rw [getBspRenderer_of_getBsp _ _ _ hmap]
  cases hg : c.getEnt app with
  | none => rw [hg] at hsome; cases hsome
  | some e => rfl

theorem EditEntityCommand_assign_refresh_eq (c : EditEntityCommand) (app : Renderer) (map : Bsp)
    (data : Entity) (hmap : c.getBsp app = some map) (hint : isInt c.entIdx)
    (hidx : 0 ≤ c.entIdx ∧ c.entIdx < map.ents.length) :
    (c.assign app data).bind c.refresh =
      some { app.setBsp c.mapIdx { map with ents := map.ents.set c.entIdx.toNat data } with
        pickCount := app.pickCount + 1 } := by
  obtain ⟨_, hsome⟩ := EditEntityCommand_getEnt_of_valid c app map hmap hint hidx
  have hsz : toSizeT c.entIdx = c.entIdx.toNat :=
    toSizeT_eq _ hidx.1 (by unfold isInt at hint; omega)
  have hassign : c.assign app data =
      some (app.setBsp c.mapIdx { map with ents := map.ents.set c.entIdx.toNat data }) := by
    unfold EditEntityCommand.assign
    rw [hmap, hsz]
    cases hg : c.getEnt app with
    | none => rw [hg] at hsome; cases hsome
    | some e => rfl
  rw [hassign, Option.some_bind]
  have hmap1 := getBsp_setBsp c.toCommand app map
    { map with ents := map.ents.set c.entIdx.toNat data } hmap
  rw [EditEntityCommand_refresh_of_valid c _ _ hmap1 hint (by simpa using hidx)]
  rfl

/-- C3: for every document and every valid entity index, `execute()` of an
`EditEntityCommand` built from the entities `before` and `after` leaves the live entity
equal to `after` in full, and `undo()` leaves it equal to `before` in full, whatever the live
entity held; the other entities and the length of the table are unchanged. -/
theorem EditEntityCommand_whole_record_replace (desc : String) (pick : PickInfo)
    (before after : Entity) (app : Renderer) (map : Bsp)
    (hmap : (EditEntityCommand.new desc pick before after).getBsp app = some map)
    (hint : isInt pick.entIdx)
    (hidx : 0 ≤ pick.entIdx ∧ pick.entIdx < map.ents.length) :
    (∃ (app1 : Renderer) (map1 : Bsp),
      (EditEntityCommand.new desc pick before after).execute app = some app1 ∧
      (EditEntityCommand.new desc pick before after).getBsp app1 = some map1 ∧
      (EditEntityCommand.new desc pick before after).getEnt app1 = some after ∧
      map1.ents = map.ents.set pick.entIdx.toNat after ∧
      map1.ents.length = map.ents.length ∧
      (∀ j : Nat, j ≠ pick.entIdx.toNat → map1.ents.get? j = map.ents.get? j)) ∧
    (∃ (app2 : Renderer) (map2 : Bsp),
      (EditEntityCommand.new desc pick before after).undo app = some app2 ∧
      (EditEntityCommand.new desc pick before after).getBsp app2 = some map2 ∧
      (EditEntityCommand.new desc pick before after).getEnt app2 = some before ∧
      map2.ents = map.ents.set pick.entIdx.toNat before ∧
      map2.ents.length = map.ents.length ∧
      (∀ j : Nat, j ≠ pick.entIdx.toNat → map2.ents.get? j = map.ents.get? j)) := by
  have key : ∀ data : Entity, ∃ (app1 : Renderer) (map1 : Bsp),
      ((EditEntityCommand.new desc pick before after).assign app data).bind
        (EditEntityCommand.new desc pick before after).refresh = some app1 ∧
      (EditEntityCommand.new desc pick before after).getBsp app1 = some map1 ∧
      (EditEntityCommand.new desc pick before after).getEnt app1 = some data ∧
      map1.ents = map.ents.set pick.entIdx.toNat data ∧
      map1.ents.length = map.ents.length ∧
      (∀ j : Nat, j ≠ pick.entIdx.toNat → map1.ents.get? j = map.ents.get? j) := by
    intro data
    have hlt : pick.entIdx.toNat < map.ents.length := by omega
    have hmap1 : (EditEntityCommand.new desc pick before after).getBsp
        ({ app.setBsp pick.mapIdx { map with ents := map.ents.set pick.entIdx.toNat data } with
          pickCount := app.pickCount + 1 } : Renderer) =
        some { map with ents := map.ents.set pick.entIdx.toNat data } :=
      (getBsp_of_mapRenderers _ _ _ rfl).trans (getBsp_setBsp _ app map _ hmap)
    refine ⟨_, _, EditEntityCommand_assign_refresh_eq _ app map data hmap hint hidx, hmap1,
      ?_, rfl, ?_, ?_⟩
    · have h := (EditEntityCommand_getEnt_of_valid _ _ _ hmap1 hint (by simpa using hidx)).1
      refine Eq.trans h ?_
      simp only [EditEntityCommand.new, List.get?_eq_getElem?]
      rw [List.getElem?_set_self hlt]
    · simp
    · intro j hj
      simp only [List.get?_eq_getElem?]
      rw [List.getElem?_set_ne (Ne.symm hj)]
  exact ⟨key after, key before⟩

/-- Witness for C3: an edit of entity 1 of the sample table. -/
theorem EditEntityCommand_whole_record_replace_witness :
    (∃ (app1 : Renderer) (map1 : Bsp),
      sampleEdit.execute sampleApp = some app1 ∧
      sampleEdit.getBsp app1 = some map1 ∧
      sampleEdit.getEnt app1 = some ⟨[("classname", "light"), ("origin", "0 0 128")]⟩ ∧
      map1.ents = sampleMap.ents.set (1 : Int).toNat
        ⟨[("classname", "light"), ("origin", "0 0 128")]⟩ ∧
      map1.ents.length = sampleMap.ents.length ∧
      (∀ j : Nat, j ≠ (1 : Int).toNat → map1.ents.get? j = sampleMap.ents.get? j)) ∧
    (∃ (app2 : Renderer) (map2 : Bsp),
      sampleEdit.undo sampleApp = some app2 ∧
      sampleEdit.getBsp app2 = some map2 ∧
      sampleEdit.getEnt app2 = some entB ∧
      map2.ents = sampleMap.ents.set (1 : Int).toNat entB ∧
      map2.ents.length = sampleMap.ents.length ∧
      (∀ j : Nat, j ≠ (1 : Int).toNat → map2.ents.get? j = sampleMap.ents.get? j)) :=
  EditEntityCommand_whole_record_replace "Edit Keyvalue" ⟨0, 1, -1, some entB⟩ entB
    ⟨[("classname", "light"), ("origin", "0 0 128")]⟩ sampleApp sampleMap
    (by decide) (by decide) (by decide)

/-- The resolver returns `NULL` exactly when the document index (an `int`) is negative or
not below the number of open documents. -/
theorem getBsp_eq_none_iff (c : Command) (app : Renderer) (hint : isInt c.mapIdx) :
    c.getBsp app = none ↔ c.mapIdx < 0 ∨ (app.mapRenderers.length : Int) ≤ c.mapIdx := by
  unfold Command.getBsp
  by_cases h0 : c.mapIdx < 0
  · simp [h0]
  · have hsz : toSizeT c.mapIdx = c.mapIdx.toNat :=
      toSizeT_eq _ (by omega) (by unfold isInt at hint; omega)
    rw [hsz]
    by_cases h1 : c.mapIdx.toNat ≥ app.mapRenderers.length
    · rw [if_pos (Or.inr h1)]
      simp only [true_iff]
      right
      omega
    · rw [if_neg (by omega)]
      have hlt : c.mapIdx.toNat < app.mapRenderers.length := by omega
      rw [List.get?_eq_get hlt]
      constructor
      · intro h
        cases h
      · intro h
        cases h with
        | inl h => exact absurd h h0
        | inr h => omega

/-- Whenever `getEnt` returns `NULL`, `execute()` and `undo()` of `EditEntityCommand`
fault. -/
theorem EditEntityCommand_fault_of_getEnt_none (c : EditEntityCommand) (app : Renderer)
    (h : c.getEnt app = none) : c.execute app = none ∧ c.undo app = none := by
  unfold EditEntityCommand.execute EditEntityCommand.undo EditEntityCommand.assign
  rw [h]
  exact ⟨rfl, rfl⟩

/-- Whenever the resolver returns `NULL`, `execute()` and `undo()` of `CreateEntityCommand` and
of `DeleteEntityCommand` fault. -/
theorem fault_of_getBsp_none (host : Host) (cr : CreateEntityCommand) (d : DeleteEntityCommand)
    (app : Renderer) (hcr : cr.getBsp app = none) (hd : d.getBsp app = none) :
    cr.execute app = none ∧ cr.undo host app = none ∧
      d.execute host app = none ∧ d.undo app = none := by
  unfold CreateEntityCommand.execute CreateEntityCommand.undo DeleteEntityCommand.execute
    DeleteEntityCommand.undo
  simp only [hcr, hd, and_self]

/-- C4: with the entity index 5, or -1, on the three-entity sample table of an open
document, `getEnt` returns `NULL`, and `execute()` and `undo()` write through that pointer:
both fault instead of leaving the table unchanged. -/
theorem EditEntityCommand_stale_index_faults :
    staleEdit.getBsp sampleApp = some sampleMap ∧
    staleEdit.getEnt sampleApp = none ∧
    staleEdit.execute sampleApp = none ∧
    staleEdit.undo sampleApp = none ∧
    negativeEdit.getEnt sampleApp = none ∧
    negativeEdit.execute sampleApp = none ∧
    negativeEdit.undo sampleApp = none := by
  decide

/-- C5: with no open document the resolvers return `NULL`, and `execute()` and `undo()` of
`CreateEntityCommand` and of `DeleteEntityCommand` dereference it: they fault instead of
doing nothing. -/
theorem missing_document_faults :
    sampleCreate.getBsp emptyApp = none ∧
    sampleCreate.getBspRenderer emptyApp = none ∧
    sampleCreate.execute emptyApp = none ∧
    sampleCreate.undo sampleHost emptyApp = none ∧
    sampleDelete.execute sampleHost emptyApp = none ∧
    sampleDelete.undo emptyApp = none := by
  decide

/-! ## Create entity -/

theorem CreateEntityCommand_refresh_of_getBsp (c : CreateEntityCommand) (app : Renderer)
    (map : Bsp) (h : c.getBsp app = some map) : c.refresh app = some app := by
  unfold CreateEntityCommand.refresh
  rw [getBspRenderer_of_getBsp _ _ _ h]

theorem CreateEntityCommand_execute_eq (c : CreateEntityCommand) (app : Renderer) (map : Bsp)
    (hmap : c.getBsp app = some map) :
    c.execute app = some (app.setBsp c.mapIdx { map with ents := map.ents ++ [c.entData] }) := by
  unfold CreateEntityCommand.execute
  rw [hmap]
  exact CreateEntityCommand_refresh_of_getBsp c _ _ (getBsp_setBsp _ _ map _ hmap)

theorem CreateEntityCommand_undo_eq (host : Host) (c : CreateEntityCommand) (app : Renderer)
    (map : Bsp) (hmap : c.getBsp app = some map) (hne : map.ents.length ≠ 0) :
    c.undo host app =
      some (({ app with pickInfo :=
          CreateEntityCommand.pickAfterUndo host map.ents.length app.pickInfo } : Renderer).setBsp
        c.mapIdx { map with ents := map.ents.dropLast }) := by
  unfold CreateEntityCommand.undo
  rw [hmap]
  simp only [hne, if_false]
  exact CreateEntityCommand_refresh_of_getBsp c _ _ (getBsp_setBsp_pick _ _ _ map _ hmap)

theorem last_index_test (s : Int) (n : Nat) (hs : isInt s) (hn : n + 1 < 2 ^ 63) :
    toSizeT s = (n + 1 + (2 ^ 64 - 1)) % 2 ^ 64 ↔ s = n := by
  unfold toSizeT isInt at *
  omega

/-- C6: for every entity table `T` of a present document and every entity template `e`,
`execute()` of `CreateEntityCommand` yields the table `T` followed by a copy of `e` and
leaves the selection alone; `undo()` on that state yields exactly `T` again, and it clears the
selection when the selection (an `int`) is the last index and leaves it unchanged
otherwise. The table is one a vector can hold (fewer than `2^63` entries). -/
theorem CreateEntityCommand_append_unappend (host : Host) (desc : String) (mapIdx : Int)
    (e : Entity) (app : Renderer) (map : Bsp)
    (hmap : (CreateEntityCommand.new desc mapIdx e).getBsp app = some map)
    (hlen : map.ents.length + 1 < 2 ^ 63) :
    ∃ app1 : Renderer,
      (CreateEntityCommand.new desc mapIdx e).execute app = some app1 ∧
      (CreateEntityCommand.new desc mapIdx e).getBsp app1 =
        some { map with ents := map.ents ++ [e] } ∧
      app1.pickInfo = app.pickInfo ∧
      ∀ pick : PickInfo, isInt pick.entIdx →
        ∃ app2 : Renderer,
          (CreateEntityCommand.new desc mapIdx e).undo host { app1 with pickInfo := pick } =
            some app2 ∧
          (CreateEntityCommand.new desc mapIdx e).getBsp app2 = some map ∧
          app2.mapRenderers = app.mapRenderers ∧
          (pick.entIdx = map.ents.length → app2.pickInfo = host.deselectObject pick) ∧
          (pick.entIdx ≠ map.ents.length → app2.pickInfo = pick) := by
  have hex := CreateEntityCommand_execute_eq _ app map hmap
  have hmap1 := getBsp_setBsp (CreateEntityCommand.new desc mapIdx e).toCommand app map
    { map with ents := map.ents ++ [e] } hmap
  refine ⟨_, hex, hmap1, rfl, ?_⟩
  intro pick hpick
  have hmap1p : (CreateEntityCommand.new desc mapIdx e).getBsp
      ({ app.setBsp mapIdx { map with ents := map.ents ++ [e] } with pickInfo := pick } :
        Renderer) = some { map with ents := map.ents ++ [e] } :=
    (getBsp_of_mapRenderers _ _ _ rfl).trans hmap1
  have hun := CreateEntityCommand_undo_eq host _ _ _ hmap1p (by simp)
  have htest := last_index_test pick.entIdx map.ents.length hpick hlen
  have hrs : (app.mapRenderers.set (toSizeT mapIdx)
      { map := { map with ents := map.ents ++ [e] } }).set (toSizeT mapIdx) { map := map } =
      app.mapRenderers := by
    have := congrArg Renderer.mapRenderers
      (setBsp_self (CreateEntityCommand.new desc mapIdx e).toCommand app map hmap)
    rw [List.set_set]
    exact this
  refine ⟨_, hun, ?_, ?_, ?_, ?_⟩
  · have h2 := getBsp_setBsp_pick (CreateEntityCommand.new desc mapIdx e).toCommand _
      (CreateEntityCommand.pickAfterUndo host (map.ents ++ [e]).length pick) _ map hmap1p
    simp only [List.dropLast_concat]
    exact h2
  · simp only [Renderer.setBsp, CreateEntityCommand.new, List.dropLast_concat]
    exact hrs
  · intro h
    have h' := htest.2 h
    simp only [Renderer.setBsp, CreateEntityCommand.pickAfterUndo, List.length_append,
      List.length_singleton, h', if_true]
  · intro h
    have h' : ¬ toSizeT pick.entIdx = (map.ents.length + 1 + (2 ^ 64 - 1)) % 2 ^ 64 :=
      fun hc => h (htest.1 hc)
    simp only [Renderer.setBsp, CreateEntityCommand.pickAfterUndo, List.length_append,
      List.length_singleton, h', if_false]

/-- Witness for C6: appending a copy of `B` to the sample table `[A, B, C]`. -/
theorem CreateEntityCommand_append_unappend_witness :
    ∃ app1 : Renderer,
      (CreateEntityCommand.new "Create Entity" 0 entB).execute sampleApp = some app1 ∧
      (CreateEntityCommand.new "Create Entity" 0 entB).getBsp app1 =
        some { sampleMap with ents := sampleMap.ents ++ [entB] } ∧
      app1.pickInfo = sampleApp.pickInfo ∧
      ∀ pick : PickInfo, isInt pick.entIdx →
        ∃ app2 : Renderer,
          (CreateEntityCommand.new "Create Entity" 0 entB).undo sampleHost
            { app1 with pickInfo := pick } = some app2 ∧
          (CreateEntityCommand.new "Create Entity" 0 entB).getBsp app2 = some sampleMap ∧
          app2.mapRenderers = sampleApp.mapRenderers ∧
          (pick.entIdx = sampleMap.ents.length → app2.pickInfo = sampleHost.deselectObject pick) ∧
          (pick.entIdx ≠ sampleMap.ents.length → app2.pickInfo = pick) :=
  CreateEntityCommand_append_unappend sampleHost "Create Entity" 0 entB sampleApp sampleMap
    (by decide) (by decide)

/-! ## Lemmas on the segment store -/

theorem lump_mk_range (f : Nat → Lump) (ents : List Entity) (k : Nat) (hk : k < HEADER_LUMPS) :
    Bsp.lump { lumps := (List.range HEADER_LUMPS).map f, ents := ents } k = f k := by
  simp [Bsp.lump, List.getD_eq_getElem?_getD, List.getElem?_range hk]

theorem getD_map_range (f : Nat → Option Lump) (k : Nat) (hk : k < HEADER_LUMPS) :
    ((List.range HEADER_LUMPS).map f).getD k none = f k := by
  simp [List.getD_eq_getElem?_getD, List.getElem?_range hk]

theorem lump_replace_lumps (map : Bsp) (st : LumpState) (k : Nat) (hk : k < HEADER_LUMPS) :
    (map.replace_lumps st).lump k = (st.getD k none).getD (map.lump k) := by
  unfold Bsp.replace_lumps
  rw [lump_mk_range _ _ _ hk]
  cases st.getD k none <;> rfl

theorem getD_duplicate_lumps (map : Bsp) (targets k : Nat) (hk : k < HEADER_LUMPS) :
    (map.duplicate_lumps targets).getD k none =
      if targets.testBit k then some (map.lump k) else none := by
  unfold Bsp.duplicate_lumps
  rw [getD_map_range _ _ hk]

theorem lump_withGeometry (map : Bsp) (g : Nat → Lump) (models : Lump) (k : Nat)
    (hk : k < HEADER_LUMPS) :
    (map.withGeometry g models).lump k =
      if k = LUMP_MODELS then models else if k ∈ geometryKinds then g k else map.lump k := by
  unfold Bsp.withGeometry
  rw [lump_mk_range _ _ _ hk]

theorem lump_setLump (map : Bsp) (j : Nat) (data : Lump) (k : Nat) (hk : k < HEADER_LUMPS) :
    (map.setLump j data).lump k = if k = j then data else map.lump k := by
  unfold Bsp.setLump
  rw [lump_mk_range _ _ _ hk]

theorem length_modelRecord (bytes : Lump) : (modelRecord bytes).length = sizeofBSPMODEL := by
  simp [modelRecord]

theorem modelCount_of_lump (a b : Bsp) (h : a.lump LUMP_MODELS = b.lump LUMP_MODELS) :
    a.modelCount = b.modelCount := by
  unfold Bsp.modelCount
  rw [h]

theorem modelCount_append (a b : Bsp) (bytes : Lump)
    (h : a.lump LUMP_MODELS = b.lump LUMP_MODELS ++ modelRecord bytes) :
    a.modelCount = b.modelCount + 1 := by
  unfold Bsp.modelCount
  rw [h, List.length_append, length_modelRecord]
  have : (List.length (b.lump LUMP_MODELS) + sizeofBSPMODEL) / sizeofBSPMODEL =
      List.length (b.lump LUMP_MODELS) / sizeofBSPMODEL + 1 := by
    unfold sizeofBSPMODEL
    omega
  rw [this]
  push_cast
  rfl

theorem lookup_setKeyvalue (l : List (String × String)) (key value : String) :
    lookupKeyvalue (setKeyvalue l key value) key = some value := by
  induction l with
  | nil => simp [setKeyvalue, lookupKeyvalue]
  | cons kv rest ih =>
    obtain ⟨k, v⟩ := kv
    by_cases h : k = key
    · simp [setKeyvalue, lookupKeyvalue, h]
    · simp [setKeyvalue, lookupKeyvalue, h, ih]

theorem keyvalue_setOrAddKeyvalue (e : Entity) (key value : String) :
    (e.setOrAddKeyvalue key value).keyvalue key = some value :=
  lookup_setKeyvalue _ _ _

theorem keyvalue_addKeyvalue (e : Entity) (key value : String) :
    (e.addKeyvalue key value).keyvalue key = some value :=
  lookup_setKeyvalue _ _ _

theorem testBit_dupLumps (k : Nat) : dupLumps.testBit k = true ↔ k ∈ dupKinds := by
  unfold dupKinds
  by_cases hk : k < 15
  · interval_cases k <;> decide
  · have h1 : dupLumps < 2 ^ k :=
      lt_of_lt_of_le (by decide : dupLumps < 2 ^ 15) (Nat.pow_le_pow_right (by decide) (by omega))
    rw [Nat.testBit_lt_two_pow h1]
    simp only [List.mem_cons, List.mem_singleton, LUMP_CLIPNODES, LUMP_EDGES, LUMP_FACES,
      LUMP_NODES, LUMP_PLANES, LUMP_SURFEDGES, LUMP_TEXINFO, LUMP_VERTICES, LUMP_LIGHTING,
      LUMP_MODELS, List.not_mem_nil]
    constructor
    · intro h; cases h
    · intro h
      simp only [or_false] at h
      omega

theorem testBit_dupLumps_textures (k : Nat) :
    (dupLumps ||| TEXTURES).testBit k = true ↔ k ∈ dupKinds ∨ k = LUMP_TEXTURES := by
  rw [Nat.testBit_lor, Bool.or_eq_true, testBit_dupLumps]
  have : TEXTURES.testBit k = true ↔ k = LUMP_TEXTURES := by
    unfold TEXTURES
    rw [Nat.one_shiftLeft, Nat.testBit_two_pow]
    simp [eq_comm]
  rw [this]

/-! ## Duplicate BSP model -/

theorem DuplicateBspModelCommand_execute_spec (host : Host) (c : DuplicateBspModelCommand)
    (app : Renderer) (map : Bsp) (hmap : c.getBsp app = some map)
    (hent : 0 ≤ c.entIdx ∧ c.entIdx < map.ents.length)
    (hmodel : 0 ≤ c.oldModelIdx ∧ c.oldModelIdx < map.modelCount) :
    ∃ (app1 : Renderer) (map1 : Bsp) (bytes : Lump),
      c.execute host app =
        some ({ c with
          oldLumps := if c.initialized = true then c.oldLumps else map.duplicate_lumps dupLumps,
          initialized := true, newModelIdx := map.modelCount }, app1) ∧
      c.getBsp app1 = some map1 ∧
      map1.lump LUMP_MODELS = map.lump LUMP_MODELS ++ modelRecord bytes ∧
      map1.ents = map.ents.modify
        (fun ent => ent.setOrAddKeyvalue "model" ("*" ++ to_string map.modelCount))
        c.entIdx.toNat ∧
      app1.pickInfo = host.deselectObject app.pickInfo := by
  refine ⟨{ app.setBsp c.mapIdx
      { map.withGeometry (host.cloneGeometry map c.oldModelIdx)
          (map.lump LUMP_MODELS ++ modelRecord (((map.lump LUMP_MODELS).drop
            (c.oldModelIdx.toNat * sizeofBSPMODEL)).take sizeofBSPMODEL)) with
        ents := map.ents.modify
          (fun ent => ent.setOrAddKeyvalue "model" ("*" ++ to_string map.modelCount))
          c.entIdx.toNat } with
      pickInfo := host.deselectObject app.pickInfo },
    { map.withGeometry (host.cloneGeometry map c.oldModelIdx)
          (map.lump LUMP_MODELS ++ modelRecord (((map.lump LUMP_MODELS).drop
            (c.oldModelIdx.toNat * sizeofBSPMODEL)).take sizeofBSPMODEL)) with
        ents := map.ents.modify
          (fun ent => ent.setOrAddKeyvalue "model" ("*" ++ to_string map.modelCount))
          c.entIdx.toNat },
    ((map.lump LUMP_MODELS).drop (c.oldModelIdx.toNat * sizeofBSPMODEL)).take sizeofBSPMODEL,
    ?_, ?_, ?_, ?_, ?_⟩
  · unfold DuplicateBspModelCommand.execute Bsp.duplicate_model
    rw [hmap, getBspRenderer_of_getBsp _ _ _ hmap]
    simp only [hent, hmodel, and_self, if_true]
    cases hi : c.initialized <;> rfl
  · exact (getBsp_of_mapRenderers _ _ _ rfl).trans (getBsp_setBsp _ app map _ hmap)
  · exact (lump_withGeometry _ _ _ _ (by decide)).trans (if_pos rfl)
  · rfl
  · rfl

theorem DuplicateBspModelCommand_undo_spec (host : Host) (c : DuplicateBspModelCommand)
    (app : Renderer) (map : Bsp) (hmap : c.getBsp app = some map)
    (hent : 0 ≤ c.entIdx ∧ c.entIdx < map.ents.length) :
    ∃ (app1 : Renderer) (map1 : Bsp),
      c.undo host app = some (c, app1) ∧
      c.getBsp app1 = some map1 ∧
      (∀ k : Nat, k < HEADER_LUMPS →
        map1.lump k = (c.oldLumps.getD k none).getD (map.lump k)) ∧
      map1.ents = map.ents.modify
        (fun ent => ent.setOrAddKeyvalue "model" ("*" ++ to_string c.oldModelIdx))
        c.entIdx.toNat := by
  refine ⟨{ app.setBsp c.mapIdx
      { map.replace_lumps c.oldLumps with
        ents := map.ents.modify
          (fun ent => ent.setOrAddKeyvalue "model" ("*" ++ to_string c.oldModelIdx))
          c.entIdx.toNat } with
      pickInfo := host.deselectObject
        (if app.pickInfo.modelIdx = c.newModelIdx then
          { app.pickInfo with modelIdx := c.oldModelIdx }
        else if app.pickInfo.modelIdx > c.newModelIdx then
          { app.pickInfo with modelIdx := app.pickInfo.modelIdx - 1 }
        else app.pickInfo) },
    { map.replace_lumps c.oldLumps with
        ents := map.ents.modify
          (fun ent => ent.setOrAddKeyvalue "model" ("*" ++ to_string c.oldModelIdx))
          c.entIdx.toNat }, ?_, ?_, ?_, ?_⟩
  · unfold DuplicateBspModelCommand.undo
    rw [hmap, getBspRenderer_of_getBsp _ _ _ hmap]
    simp only [hent, and_self, if_true]
    rfl
  · exact (getBsp_of_mapRenderers _ _ _ rfl).trans (getBsp_setBsp _ app map _ hmap)
  · intro k hk
    exact lump_replace_lumps map c.oldLumps k hk
  · rfl

/-- C7: for every document with a valid entity index and a valid source sub-model index,
and a command that is either fresh or holds the snapshot of that document, `execute()`
succeeds, the new sub-model index is the sub-model count before the call (the count grows
by one) and the entity's "model" field is "*" followed by the decimal of that index; then
`undo()` succeeds, the sub-model count is the pre-duplicate count again and the "model"
field is "*" followed by the decimal of the original sub-model index. -/
theorem DuplicateBspModelCommand_model_field_and_count (host : Host)
    (c : DuplicateBspModelCommand) (app : Renderer) (map : Bsp)
    (hmap : c.getBsp app = some map)
    (hent : 0 ≤ c.entIdx ∧ c.entIdx < map.ents.length)
    (hmodel : 0 ≤ c.oldModelIdx ∧ c.oldModelIdx < map.modelCount)
    (hsnap : c.initialized = true → c.oldLumps = map.duplicate_lumps dupLumps) :
    ∃ (c1 : DuplicateBspModelCommand) (app1 : Renderer) (map1 : Bsp) (ent1 : Entity),
      c.execute host app = some (c1, app1) ∧
      c1.getBsp app1 = some map1 ∧
      map1.ents.get? c.entIdx.toNat = some ent1 ∧
      c1.newModelIdx = map.modelCount ∧
      map1.modelCount = map.modelCount + 1 ∧
      ent1.keyvalue "model" = some ("*" ++ to_string c1.newModelIdx) ∧
      ∃ (c2 : DuplicateBspModelCommand) (app2 : Renderer) (map2 : Bsp) (ent2 : Entity),
        c1.undo host app1 = some (c2, app2) ∧
        c2.getBsp app2 = some map2 ∧
        map2.ents.get? c.entIdx.toNat = some ent2 ∧
        map2.modelCount = map.modelCount ∧
        ent2.keyvalue "model" = some ("*" ++ to_string c.oldModelIdx) := by
  obtain ⟨app1, map1, bytes, hex, hmap1, hmodels1, hents1, _⟩ :=
    DuplicateBspModelCommand_execute_spec host c app map hmap hent hmodel
  have hlt : c.entIdx.toNat < map.ents.length := by omega
  have hget : map.ents.get? c.entIdx.toNat = some (map.ents.get ⟨c.entIdx.toNat, hlt⟩) :=
    List.get?_eq_get hlt
  have hold : (if c.initialized = true then c.oldLumps else map.duplicate_lumps dupLumps) =
      map.duplicate_lumps dupLumps := by
    by_cases hi : c.initialized = true
    · rw [if_pos hi, hsnap hi]
    · rw [if_neg hi]
  have hent1 : 0 ≤ c.entIdx ∧ c.entIdx < map1.ents.length := by
    rw [hents1, List.length_modify]
    exact hent
  obtain ⟨app2, map2, hun, hmap2, hlumps2, hents2⟩ :=
    DuplicateBspModelCommand_undo_spec host
      { c with
        oldLumps := if c.initialized = true then c.oldLumps else map.duplicate_lumps dupLumps,
        initialized := true, newModelIdx := map.modelCount } app1 map1 hmap1 hent1
  refine ⟨_, app1, map1,
    (map.ents.get ⟨c.entIdx.toNat, hlt⟩).setOrAddKeyvalue "model"
      ("*" ++ to_string map.modelCount),
    hex, hmap1, ?_, rfl, modelCount_append _ _ bytes hmodels1, ?_,
    _, app2, map2,
    ((map.ents.get ⟨c.entIdx.toNat, hlt⟩).setOrAddKeyvalue "model"
      ("*" ++ to_string map.modelCount)).setOrAddKeyvalue "model"
      ("*" ++ to_string c.oldModelIdx),
    hun, hmap2, ?_, ?_, ?_⟩
  · rw [hents1]
    simp only [List.get?_eq_getElem?, List.getElem?_modify_eq]
    simp only [List.get?_eq_getElem?] at hget
    rw [hget]
    rfl
  · exact keyvalue_setOrAddKeyvalue _ _ _
  · rw [hents2, hents1]
    simp only [List.get?_eq_getElem?, List.getElem?_modify_eq]
    simp only [List.get?_eq_getElem?] at hget
    rw [hget]
    rfl
  · apply modelCount_of_lump
    rw [hlumps2 LUMP_MODELS (by decide)]
    simp only [hold]
    rw [getD_duplicate_lumps _ _ _ (by decide)]
    rw [if_pos ((testBit_dupLumps LUMP_MODELS).2 (by decide))]
    rfl
  · exact keyvalue_setOrAddKeyvalue _ _ _

/-! ## Create BSP model -/

theorem getDefaultTextureIdx_of_textures (a b : Bsp) (h : a.textures = b.textures) :
    a.getDefaultTextureIdx = b.getDefaultTextureIdx := by
  unfold Bsp.getDefaultTextureIdx
  rw [h]

theorem readInt32_of_getDefaultTextureIdx (map : Bsp) (t : Int)
    (h : map.getDefaultTextureIdx = some t) :
    ∃ count : Int, readInt32 map.textures 0 = some count := by
  unfold Bsp.getDefaultTextureIdx at h
  cases hr : readInt32 map.textures 0 with
  | none => rw [hr] at h; cases h
  | some count => exact ⟨count, rfl⟩

theorem CreateBspModelCommand_execute_spec (host : Host) (c : CreateBspModelCommand)
    (app : Renderer) (map : Bsp) (t : Int) (hmap : c.getBsp app = some map)
    (htex : map.getDefaultTextureIdx = some t) :
    ∃ (app1 : Renderer) (map1 : Bsp) (bytes : Lump),
      c.execute host app =
        some ({ c with
          entData := if c.initialized = true then c.entData
            else c.entData.addKeyvalue "model" ("*" ++ to_string map.modelCount),
          oldLumps := if c.initialized = true then c.oldLumps
            else map.duplicate_lumps (if t = -1 then dupLumps ||| TEXTURES else dupLumps),
          initialized := true }, app1) ∧
      c.getBsp app1 = some map1 ∧
      map1.lump LUMP_MODELS = map.lump LUMP_MODELS ++ modelRecord bytes ∧
      map1.ents = map.ents ++ [if c.initialized = true then c.entData
        else c.entData.addKeyvalue "model" ("*" ++ to_string map.modelCount)] ∧
      (t ≠ -1 → map1.lump LUMP_TEXTURES = map.lump LUMP_TEXTURES) := by
  by_cases ht : t = -1
  · obtain ⟨count, hcount⟩ := readInt32_of_getDefaultTextureIdx map t htex
    have hadd : ∃ mapT : Bsp, c.addDefaultTexture host app =
        some (app.setBsp c.mapIdx mapT, count) ∧ mapT.ents = map.ents ∧
        mapT.lump LUMP_MODELS = map.lump LUMP_MODELS := by
      unfold CreateBspModelCommand.addDefaultTexture Bsp.add_texture
      simp only [hmap, hcount]
      exact ⟨_, rfl, rfl, (lump_setLump _ _ _ _ (by decide)).trans (if_neg (by decide))⟩
    obtain ⟨mapT, haddeq, hentsT, hmodelsT⟩ := hadd
    have hmapT : c.getBsp (app.setBsp c.mapIdx mapT) = some mapT :=
      getBsp_setBsp _ app map _ hmap
    have hcnt : mapT.modelCount = map.modelCount := modelCount_of_lump _ _ hmodelsT
    refine ⟨{ (app.setBsp c.mapIdx mapT).setBsp c.mapIdx
        ({ (mapT.create_solid host ⟨-c.size, -c.size, -c.size⟩ ⟨c.size, c.size, c.size⟩
          count).1 with
        ents := mapT.ents ++ [(if c.initialized = true then c.entData
          else c.entData.addKeyvalue "model" ("*" ++ to_string map.modelCount))] }) with
        pickInfo := host.deselectObject app.pickInfo },
      { (mapT.create_solid host ⟨-c.size, -c.size, -c.size⟩ ⟨c.size, c.size, c.size⟩
          count).1 with
        ents := mapT.ents ++ [(if c.initialized = true then c.entData
          else c.entData.addKeyvalue "model" ("*" ++ to_string map.modelCount))] },
      host.solidModel ⟨-c.size, -c.size, -c.size⟩ ⟨c.size, c.size, c.size⟩ count,
      ?_, ?_, ?_, ?_, fun h => absurd ht h⟩
    · unfold CreateBspModelCommand.execute CreateBspModelCommand.getDefaultTextureIdx
      simp only [hmap, getBspRenderer_of_getBsp _ _ _ hmap, htex, ht, if_true, haddeq, hmapT,
        Bsp.create_solid, hcnt]
      cases hi : c.initialized <;> rfl
    · exact (getBsp_of_mapRenderers _ _ _ rfl).trans
        (getBsp_setBsp _ _ mapT _ hmapT)
    · exact ((lump_withGeometry _ _ _ _ (by decide)).trans (if_pos rfl)).trans
        (by rw [hmodelsT])
    · show mapT.ents ++ _ = map.ents ++ _
      rw [hentsT]
  · refine ⟨{ app.setBsp c.mapIdx
        ({ (map.create_solid host ⟨-c.size, -c.size, -c.size⟩ ⟨c.size, c.size, c.size⟩
          t).1 with
        ents := map.ents ++ [(if c.initialized = true then c.entData
          else c.entData.addKeyvalue "model" ("*" ++ to_string map.modelCount))] }) with
        pickInfo := host.deselectObject app.pickInfo },
      { (map.create_solid host ⟨-c.size, -c.size, -c.size⟩ ⟨c.size, c.size, c.size⟩
          t).1 with
        ents := map.ents ++ [(if c.initialized = true then c.entData
          else c.entData.addKeyvalue "model" ("*" ++ to_string map.modelCount))] },
      host.solidModel ⟨-c.size, -c.size, -c.size⟩ ⟨c.size, c.size, c.size⟩ t,
      ?_, ?_, ?_, ?_, fun _ => ?_⟩
    · unfold CreateBspModelCommand.execute CreateBspModelCommand.getDefaultTextureIdx
      simp only [hmap, getBspRenderer_of_getBsp _ _ _ hmap, htex, ht, if_false,
        Bsp.create_solid]
      cases hi : c.initialized <;> rfl
    · exact (getBsp_of_mapRenderers _ _ _ rfl).trans (getBsp_setBsp _ app map _ hmap)
    · exact (lump_withGeometry _ _ _ _ (by decide)).trans (if_pos rfl)
    · rfl
    · exact ((lump_withGeometry _ _ _ _ (by decide)).trans (if_neg (by decide))).trans
        (if_neg (by decide))

theorem CreateBspModelCommand_undo_spec (host : Host) (c : CreateBspModelCommand)
    (app : Renderer) (map : Bsp) (hmap : c.getBsp app = some map)
    (hne : map.ents.length ≠ 0) :
    ∃ (app1 : Renderer) (map1 : Bsp),
      c.undo host app = some (c, app1) ∧
      c.getBsp app1 = some map1 ∧
      (∀ k : Nat, k < HEADER_LUMPS →
        map1.lump k = (c.oldLumps.getD k none).getD (map.lump k)) ∧
      map1.ents = map.ents.dropLast := by
  refine ⟨{ app.setBsp c.mapIdx
      { map.replace_lumps c.oldLumps with ents := map.ents.dropLast } with
      pickInfo := host.deselectObject app.pickInfo },
    { map.replace_lumps c.oldLumps with ents := map.ents.dropLast }, ?_, ?_, ?_, ?_⟩
  · unfold CreateBspModelCommand.undo
    simp only [hmap, getBspRenderer_of_getBsp _ _ _ hmap]
    have : (map.replace_lumps c.oldLumps).ents.length ≠ 0 := hne
    simp only [this, if_false]
    rfl
  · exact (getBsp_of_mapRenderers _ _ _ rfl).trans (getBsp_setBsp _ app map _ hmap)
  · intro k hk
    exact lump_replace_lumps map c.oldLumps k hk
  · rfl

/-- C8: for every present document whose texture segment can be searched, the first
`execute()` of a fresh `CreateBspModelCommand` stamps "*" followed by the sub-model count into
the "model" field of the entity template and appends a copy of the template; `undo()` and a
second `execute()` succeed, the template is not stamped again, the entity appended by the
redo equals the one appended first, and the sub-model that the redo creates has the index
that the "model" field names. -/
theorem CreateBspModelCommand_redo_reuses_stamped_index (host : Host) (desc : String)
    (mapIdx : Int) (entData : Entity) (size : Int) (app : Renderer) (map : Bsp) (t : Int)
    (hmap : (CreateBspModelCommand.new desc mapIdx entData size).getBsp app = some map)
    (htex : map.getDefaultTextureIdx = some t) :
    ∃ (c1 c2 c3 : CreateBspModelCommand) (app1 app2 app3 : Renderer) (map1 map2 map3 : Bsp),
      (CreateBspModelCommand.new desc mapIdx entData size).execute host app = some (c1, app1) ∧
      c1.getBsp app1 = some map1 ∧
      c1.undo host app1 = some (c2, app2) ∧
      c2.getBsp app2 = some map2 ∧
      c2.execute host app2 = some (c3, app3) ∧
      c3.getBsp app3 = some map3 ∧
      c1.entData = entData.addKeyvalue "model" ("*" ++ to_string map.modelCount) ∧
      c2.entData = c1.entData ∧
      c3.entData = c1.entData ∧
      map1.ents = map.ents ++ [c1.entData] ∧
      map2.ents = map.ents ∧
      map3.ents = map.ents ++ [c1.entData] ∧
      c1.entData.keyvalue "model" = some ("*" ++ to_string map.modelCount) ∧
      map1.modelCount = map.modelCount + 1 ∧
      map2.modelCount = map.modelCount ∧
      map3.modelCount = map2.modelCount + 1 := by
  obtain ⟨app1, map1, bytes1, hex1, hmap1, hmodels1, hents1, htex1⟩ :=
    CreateBspModelCommand_execute_spec host (CreateBspModelCommand.new desc mapIdx entData size)
      app map t hmap htex
  simp only [CreateBspModelCommand.new, Bool.false_eq_true, if_false] at hex1 hents1
  obtain ⟨app2, map2, hun, hmap2, hlumps2, hents2⟩ :=
    CreateBspModelCommand_undo_spec host
      { desc := desc, mapIdx := mapIdx,
        entData := entData.addKeyvalue "model" ("*" ++ to_string map.modelCount),
        size := size, initialized := true,
        oldLumps := map.duplicate_lumps (if t = -1 then dupLumps ||| TEXTURES else dupLumps) }
      app1 map1 hmap1 (by rw [hents1]; simp)
  have hents2m : map2.ents = map.ents := by
    rw [hents2, hents1, List.dropLast_concat]
  have hmodels2 : map2.lump LUMP_MODELS = map.lump LUMP_MODELS := by
    rw [hlumps2 LUMP_MODELS (by decide)]
    by_cases ht : t = -1
    · simp only [ht, if_true]
      rw [getD_duplicate_lumps _ _ _ (by decide),
        if_pos ((testBit_dupLumps_textures LUMP_MODELS).2 (Or.inl (by decide)))]
      rfl
    · simp only [ht, if_false]
      rw [getD_duplicate_lumps _ _ _ (by decide),
        if_pos ((testBit_dupLumps LUMP_MODELS).2 (by decide))]
      rfl
  have htextures2 : map2.textures = map.textures := by
    show map2.lump LUMP_TEXTURES = map.lump LUMP_TEXTURES
    rw [hlumps2 LUMP_TEXTURES (by decide)]
    by_cases ht : t = -1
    · simp only [ht, if_true]
      rw [getD_duplicate_lumps _ _ _ (by decide),
        if_pos ((testBit_dupLumps_textures LUMP_TEXTURES).2 (Or.inr rfl))]
      rfl
    · simp only [ht, if_false]
      rw [getD_duplicate_lumps _ _ _ (by decide), if_neg (by decide)]
      exact htex1 ht
  have htex2 : map2.getDefaultTextureIdx = some t :=
    (getDefaultTextureIdx_of_textures _ _ htextures2).trans htex
  have hcnt2 : map2.modelCount = map.modelCount := modelCount_of_lump _ _ hmodels2
  obtain ⟨app3, map3, bytes3, hex3, hmap3, hmodels3, hents3, _⟩ :=
    CreateBspModelCommand_execute_spec host
      { desc := desc, mapIdx := mapIdx,
        entData := entData.addKeyvalue "model" ("*" ++ to_string map.modelCount),
        size := size, initialized := true,
        oldLumps := map.duplicate_lumps (if t = -1 then dupLumps ||| TEXTURES else dupLumps) }
      app2 map2 t hmap2 htex2
  simp only [eq_self_iff_true, if_true] at hex3 hents3
  refine ⟨_, _, _, app1, app2, app3, map1, map2, map3, hex1, hmap1, hun, hmap2, hex3, hmap3,
    rfl, rfl, rfl, hents1, hents2m, ?_, keyvalue_addKeyvalue _ _ _,
    modelCount_append _ _ bytes1 hmodels1, hcnt2, modelCount_append _ _ bytes3 hmodels3⟩
  rw [hents3, hents2m]

/-- Witness for C8: a cube of half-extent 16 created in the sample document that has no
texture. -/
theorem CreateBspModelCommand_redo_reuses_stamped_index_witness :
    ∃ (c1 c2 c3 : CreateBspModelCommand) (app1 app2 app3 : Renderer) (map1 map2 map3 : Bsp),
      (CreateBspModelCommand.new "Create Model" 0 triggerTemplate 16).execute sampleHost geomApp =
        some (c1, app1) ∧
      c1.getBsp app1 = some map1 ∧
      c1.undo sampleHost app1 = some (c2, app2) ∧
      c2.getBsp app2 = some map2 ∧
      c2.execute sampleHost app2 = some (c3, app3) ∧
      c3.getBsp app3 = some map3 ∧
      c1.entData = triggerTemplate.addKeyvalue "model" ("*" ++ to_string geomMap.modelCount) ∧
      c2.entData = c1.entData ∧
      c3.entData = c1.entData ∧
      map1.ents = geomMap.ents ++ [c1.entData] ∧
      map2.ents = geomMap.ents ∧
      map3.ents = geomMap.ents ++ [c1.entData] ∧
      c1.entData.keyvalue "model" = some ("*" ++ to_string geomMap.modelCount) ∧
      map1.modelCount = geomMap.modelCount + 1 ∧
      map2.modelCount = geomMap.modelCount ∧
      map3.modelCount = map2.modelCount + 1 :=
  CreateBspModelCommand_redo_reuses_stamped_index sampleHost "Create Model" 0 triggerTemplate 16
    geomApp geomMap (-1) (by decide) (by decide)

/-- Witness for C7: duplication of sub-model 1 of the sample document for entity 2. -/
theorem DuplicateBspModelCommand_model_field_and_count_witness :
    ∃ (c1 : DuplicateBspModelCommand) (app1 : Renderer) (map1 : Bsp) (ent1 : Entity),
      sampleDuplicate.execute sampleHost geomApp = some (c1, app1) ∧
      c1.getBsp app1 = some map1 ∧
      map1.ents.get? sampleDuplicate.entIdx.toNat = some ent1 ∧
      c1.newModelIdx = geomMap.modelCount ∧
      map1.modelCount = geomMap.modelCount + 1 ∧
      ent1.keyvalue "model" = some ("*" ++ to_string c1.newModelIdx) ∧
      ∃ (c2 : DuplicateBspModelCommand) (app2 : Renderer) (map2 : Bsp) (ent2 : Entity),
        c1.undo sampleHost app1 = some (c2, app2) ∧
        c2.getBsp app2 = some map2 ∧
        map2.ents.get? sampleDuplicate.entIdx.toNat = some ent2 ∧
        map2.modelCount = geomMap.modelCount ∧
        ent2.keyvalue "model" = some ("*" ++ to_string sampleDuplicate.oldModelIdx) :=
  DuplicateBspModelCommand_model_field_and_count sampleHost sampleDuplicate geomApp geomMap
    (by decide) (by decide) (by decide) (by decide)

/-! ## Memory accounting -/

theorem utf8ByteSize_replicate (n : Nat) :
    (String.mk (List.replicate n 'a')).utf8ByteSize = n := by
  induction n with
  | zero => rfl
  | succ m ih =>
    simp only [String.utf8ByteSize, List.replicate_succ, String.utf8ByteSize.go] at ih ⊢
    rw [ih]
    rfl

theorem totalLen_zero : LumpState.zero.totalLen = 0 := by decide

theorem lumpLen_nonneg (s : LumpState) (i : Nat) : 0 ≤ s.lumpLen i := by
  unfold LumpState.lumpLen
  cases s.getD i none <;> simp

theorem totalLen_add (a b : LumpState) :
    ((List.range HEADER_LUMPS).map fun i => a.lumpLen i + b.lumpLen i).sum =
      a.totalLen + b.totalLen := by
  unfold LumpState.totalLen
  generalize List.range HEADER_LUMPS = l
  induction l with
  | nil => rfl
  | cons x xs ih =>
    simp only [List.map_cons, List.sum_cons, ih]
    omega

/-- The accounting of the five other command variants covers what they own: the entity
copies of the entity commands, the snapshot of `DuplicateBspModelCommand`, both snapshots of
`EditBspModelCommand`. -/
theorem memoryUsage_covers_owned (sz : Sizes) (e : EditEntityCommand) (d : DeleteEntityCommand)
    (cr : CreateEntityCommand) (du : DuplicateBspModelCommand) (eb : EditBspModelCommand) :
    e.oldEntData.getMemoryUsage + e.newEntData.getMemoryUsage ≤ e.memoryUsage sz ∧
    d.entData.getMemoryUsage ≤ d.memoryUsage sz ∧
    cr.entData.getMemoryUsage ≤ cr.memoryUsage sz ∧
    du.oldLumps.totalLen ≤ du.memoryUsage sz ∧
    eb.oldLumps.totalLen + eb.newLumps.totalLen ≤ eb.memoryUsage sz := by
  unfold EditEntityCommand.memoryUsage DeleteEntityCommand.memoryUsage
    CreateEntityCommand.memoryUsage DuplicateBspModelCommand.memoryUsage
    EditBspModelCommand.memoryUsage
  rw [totalLen_add]
  refine ⟨?_, ?_, ?_, ?_, ?_⟩ <;> omega

/-- Whenever the entity template is larger than `sizeof(DuplicateBspModelCommand)`,
`CreateBspModelCommand::memoryUsage` is below what the command owns. -/
theorem CreateBspModelCommand_memoryUsage_lt_owned (sz : Sizes) (c : CreateBspModelCommand)
    (h : (sz.duplicateBspModelCommand : Int) < c.entData.getMemoryUsage) :
    c.memoryUsage sz < c.ownedBytes := by
  unfold CreateBspModelCommand.memoryUsage CreateBspModelCommand.ownedBytes
  omega

/-- C9: whatever `sizeof(DuplicateBspModelCommand)` is, a `CreateBspModelCommand` built
from an entity template that is larger than it reports less memory than the snapshot and the
entity copy it owns: `memoryUsage()` leaves the entity template out. -/
theorem CreateBspModelCommand_memoryUsage_underreports (sz : Sizes) :
    (CreateBspModelCommand.new "Create Model" 0 (bigEntity sz.duplicateBspModelCommand)
        16).memoryUsage sz <
      (CreateBspModelCommand.new "Create Model" 0 (bigEntity sz.duplicateBspModelCommand)
        16).ownedBytes := by
  unfold CreateBspModelCommand.memoryUsage CreateBspModelCommand.ownedBytes
  simp only [CreateBspModelCommand.new, totalLen_zero, bigEntity, Entity.getMemoryUsage,
    List.map_cons, List.map_nil, List.sum_cons, List.sum_nil, utf8ByteSize_replicate]
  have : ("message" : String).utf8ByteSize = 7 := by decide
  rw [this]
  push_cast
  omega

/-! ## Lazy snapshot -/

theorem DuplicateBspModelCommand_execute_step (host : Host) (c c1 : DuplicateBspModelCommand)
    (app app1 : Renderer) (h : c.execute host app = some (c1, app1)) :
    ∃ map : Bsp, c.getBsp app = some map ∧ c1.initialized = true ∧
      c1.oldLumps =
        if c.initialized = true then c.oldLumps else map.duplicate_lumps dupLumps := by
  unfold DuplicateBspModelCommand.execute at h
  cases hm : c.getBsp app with
  | none => simp [hm] at h
  | some map =>
    cases hr : c.getBspRenderer app with
    | none => simp [hm, hr] at h
    | some r =>
      simp only [hm, hr] at h
      split at h
      · cases hd : map.duplicate_model host c.oldModelIdx with
        | none => simp [hd] at h
        | some p =>
          obtain ⟨map1, idx⟩ := p
          simp only [hd, Option.some.injEq, Prod.mk.injEq] at h
          obtain ⟨hc, _⟩ := h
          subst hc
          refine ⟨map, rfl, rfl, ?_⟩
          cases c.initialized <;> rfl
      · cases h

theorem DuplicateBspModelCommand_undo_step (host : Host) (c c1 : DuplicateBspModelCommand)
    (app app1 : Renderer) (h : c.undo host app = some (c1, app1)) : c1 = c := by
  unfold DuplicateBspModelCommand.undo at h
  cases hm : c.getBsp app with
  | none => simp [hm] at h
  | some map =>
    cases hr : c.getBspRenderer app with
    | none => simp [hm, hr] at h
    | some r =>
      simp only [hm, hr] at h
      split at h
      · simp only [Option.some.injEq, Prod.mk.injEq] at h
        exact h.1.symm
      · cases h

theorem CreateBspModelCommand_execute_step (host : Host) (c c1 : CreateBspModelCommand)
    (app app1 : Renderer) (h : c.execute host app = some (c1, app1)) :
    ∃ (map : Bsp) (t : Int), c.getBsp app = some map ∧ map.getDefaultTextureIdx = some t ∧
      c1.initialized = true ∧
      c1.oldLumps =
        if c.initialized = true then c.oldLumps
        else map.duplicate_lumps (if t = -1 then dupLumps ||| TEXTURES else dupLumps) := by
  cases hm : c.getBsp app with
  | none => simp [CreateBspModelCommand.execute, hm] at h
  | some map =>
    cases ht : map.getDefaultTextureIdx with
    | none =>
      simp [CreateBspModelCommand.execute, CreateBspModelCommand.getDefaultTextureIdx, hm, ht]
        at h
    | some t =>
      obtain ⟨app2, map2, bytes, hex, _⟩ :=
        CreateBspModelCommand_execute_spec host c app map t hm ht
      rw [hex] at h
      simp only [Option.some.injEq, Prod.mk.injEq] at h
      obtain ⟨hc, _⟩ := h
      subst hc
      exact ⟨map, t, rfl, ht, rfl, rfl⟩

theorem CreateBspModelCommand_undo_step (host : Host) (c c1 : CreateBspModelCommand)
    (app app1 : Renderer) (h : c.undo host app = some (c1, app1)) : c1 = c := by
  unfold CreateBspModelCommand.undo at h
  cases hm : c.getBsp app with
  | none => simp [hm] at h
  | some map =>
    cases hr : c.getBspRenderer app with
    | none => simp [hm, hr] at h
    | some r =>
      simp only [hm, hr] at h
      split at h
      · cases h
      · simp only [Option.some.injEq, Prod.mk.injEq] at h
        exact h.1.symm

theorem DuplicateBspModelCommand_run_keeps_snapshot (host : Host) (ops : List Bool) :
    ∀ (c c1 : DuplicateBspModelCommand) (app app1 : Renderer),
      c.initialized = true → DuplicateBspModelCommand.run host ops (c, app) = some (c1, app1) →
      c1.initialized = true ∧ c1.oldLumps = c.oldLumps := by
  induction ops with
  | nil =>
    intro c c1 app app1 hi h
    simp only [DuplicateBspModelCommand.run, Option.some.injEq, Prod.mk.injEq] at h
    rw [← h.1]
    exact ⟨hi, rfl⟩
  | cons op ops ih =>
    intro c c1 app app1 hi h
    cases op with
    | true =>
      simp only [DuplicateBspModelCommand.run] at h
      cases hx : c.execute host app with
      | none => rw [hx] at h; cases h
      | some r =>
        obtain ⟨c2, app2⟩ := r
        rw [hx, Option.some_bind] at h
        obtain ⟨map, _, hi2, hl2⟩ := DuplicateBspModelCommand_execute_step host c c2 app app2 hx
        rw [if_pos hi] at hl2
        obtain ⟨h1, h2⟩ := ih c2 c1 app2 app1 hi2 h
        exact ⟨h1, h2.trans hl2⟩
    | false =>
      simp only [DuplicateBspModelCommand.run] at h
      cases hx : c.undo host app with
      | none => rw [hx] at h; cases h
      | some r =>
        obtain ⟨c2, app2⟩ := r
        rw [hx, Option.some_bind] at h
        have hc := DuplicateBspModelCommand_undo_step host c c2 app app2 hx
        subst hc
        exact ih c2 c1 app2 app1 hi h

theorem CreateBspModelCommand_run_keeps_snapshot (host : Host) (ops : List Bool) :
    ∀ (c c1 : CreateBspModelCommand) (app app1 : Renderer),
      c.initialized = true → CreateBspModelCommand.run host ops (c, app) = some (c1, app1) →
      c1.initialized = true ∧ c1.oldLumps = c.oldLumps := by
  induction ops with
  | nil =>
    intro c c1 app app1 hi h
    simp only [CreateBspModelCommand.run, Option.some.injEq, Prod.mk.injEq] at h
    rw [← h.1]
    exact ⟨hi, rfl⟩
  | cons op ops ih =>
    intro c c1 app app1 hi h
    cases op with
    | true =>
      simp only [CreateBspModelCommand.run] at h
      cases hx : c.execute host app with
      | none => rw [hx] at h; cases h
      | some r =>
        obtain ⟨c2, app2⟩ := r
        rw [hx, Option.some_bind] at h
        obtain ⟨map, t, _, _, hi2, hl2⟩ :=
          CreateBspModelCommand_execute_step host c c2 app app2 hx
        rw [if_pos hi] at hl2
        obtain ⟨h1, h2⟩ := ih c2 c1 app2 app1 hi2 h
        exact ⟨h1, h2.trans hl2⟩
    | false =>
      simp only [CreateBspModelCommand.run] at h
      cases hx : c.undo host app with
      | none => rw [hx] at h; cases h
      | some r =>
        obtain ⟨c2, app2⟩ := r
        rw [hx, Option.some_bind] at h
        have hc := CreateBspModelCommand_undo_step host c c2 app app2 hx
        subst hc
        exact ih c2 c1 app2 app1 hi h

theorem getD_duplicate_lumps_ge (map : Bsp) (targets k : Nat) (hk : ¬ k < HEADER_LUMPS) :
    (map.duplicate_lumps targets).getD k none = none := by
  unfold Bsp.duplicate_lumps
  rw [List.getD_eq_getElem?_getD, List.getElem?_eq_none (by simpa using hk)]
  rfl

theorem mem_dupKinds_lt (k : Nat) (h : k ∈ dupKinds) : k < HEADER_LUMPS := by
  simp only [dupKinds, List.mem_cons, List.mem_singleton, LUMP_CLIPNODES, LUMP_EDGES,
    LUMP_FACES, LUMP_NODES, LUMP_PLANES, LUMP_SURFEDGES, LUMP_TEXINFO, LUMP_VERTICES,
    LUMP_LIGHTING, LUMP_MODELS, List.not_mem_nil, or_false] at h
  unfold HEADER_LUMPS
  omega

theorem getD_snapshot_dupLumps (map : Bsp) (k : Nat) :
    (map.duplicate_lumps dupLumps).getD k none =
      if k ∈ dupKinds then some (map.lump k) else none := by
  by_cases hk : k < HEADER_LUMPS
  · rw [getD_duplicate_lumps _ _ _ hk]
    by_cases hb : dupLumps.testBit k = true
    · rw [if_pos hb, if_pos ((testBit_dupLumps k).1 hb)]
    · rw [if_neg hb, if_neg (fun hm => hb ((testBit_dupLumps k).2 hm))]
  · rw [getD_duplicate_lumps_ge _ _ _ hk, if_neg (fun hm => hk (mem_dupKinds_lt k hm))]

theorem getD_snapshot_dupLumps_textures (map : Bsp) (k : Nat) :
    (map.duplicate_lumps (dupLumps ||| TEXTURES)).getD k none =
      if k ∈ dupKinds ∨ k = LUMP_TEXTURES then some (map.lump k) else none := by
  by_cases hk : k < HEADER_LUMPS
  · rw [getD_duplicate_lumps _ _ _ hk]
    by_cases hb : (dupLumps ||| TEXTURES).testBit k = true
    · rw [if_pos hb, if_pos ((testBit_dupLumps_textures k).1 hb)]
    · rw [if_neg hb, if_neg (fun hm => hb ((testBit_dupLumps_textures k).2 hm))]
  · rw [getD_duplicate_lumps_ge _ _ _ hk, if_neg]
    rintro (hm | hm)
    · exact hk (mem_dupKinds_lt k hm)
    · exact hk (by rw [hm]; decide)

/-- C10: `DuplicateBspModelCommand` and `CreateBspModelCommand` are constructed
uninitialized; an `execute()` takes a snapshot exactly when the command is still
uninitialized, and leaves it initialized; `undo()` changes nothing of the command. So after
a first `execute()` and any further calls of `execute()` and `undo()`, the stored snapshot is
the one of the document as it was before the first call. It holds the bytes of the clip-node,
edge, face, node, plane, surface-edge, tex-info, vertex, lighting and sub-model segments
and of no other kind, except that `CreateBspModelCommand` also holds the texture segment
exactly when the search for the default texture returned -1 in the first call. -/
theorem lazy_one_time_snapshot (host : Host)
    (descD : String) (pick : PickInfo) (opsD : List Bool) (appD appD1 : Renderer) (mapD : Bsp)
    (cD : DuplicateBspModelCommand)
    (descC : String) (mapIdx : Int) (entData : Entity) (size : Int) (opsC : List Bool)
    (appC appC1 : Renderer) (mapC : Bsp) (cC : CreateBspModelCommand)
    (hmapD : (DuplicateBspModelCommand.new descD pick).getBsp appD = some mapD)
    (hrunD : DuplicateBspModelCommand.run host (true :: opsD)
      (DuplicateBspModelCommand.new descD pick, appD) = some (cD, appD1))
    (hmapC : (CreateBspModelCommand.new descC mapIdx entData size).getBsp appC = some mapC)
    (hrunC : CreateBspModelCommand.run host (true :: opsC)
      (CreateBspModelCommand.new descC mapIdx entData size, appC) = some (cC, appC1)) :
    ((DuplicateBspModelCommand.new descD pick).initialized = false ∧
      cD.initialized = true ∧
      cD.oldLumps = mapD.duplicate_lumps dupLumps ∧
      ∀ k : Nat, cD.oldLumps.getD k none =
        if k ∈ dupKinds then some (mapD.lump k) else none) ∧
    ((CreateBspModelCommand.new descC mapIdx entData size).initialized = false ∧
      cC.initialized = true ∧
      cC.oldLumps = mapC.duplicate_lumps
        (if mapC.getDefaultTextureIdx = some (-1) then dupLumps ||| TEXTURES else dupLumps) ∧
      ∀ k : Nat, cC.oldLumps.getD k none =
        if k ∈ dupKinds ∨ (k = LUMP_TEXTURES ∧ mapC.getDefaultTextureIdx = some (-1)) then
          some (mapC.lump k)
        else none) ∧
    (∀ (c c1 : DuplicateBspModelCommand) (app app1 : Renderer),
      c.execute host app = some (c1, app1) →
        c1.initialized = true ∧
        ∃ map : Bsp, c.getBsp app = some map ∧
          c1.oldLumps =
            if c.initialized = true then c.oldLumps else map.duplicate_lumps dupLumps) ∧
    (∀ (c c1 : DuplicateBspModelCommand) (app app1 : Renderer),
      c.undo host app = some (c1, app1) → c1 = c) ∧
    (∀ (c c1 : CreateBspModelCommand) (app app1 : Renderer),
      c.execute host app = some (c1, app1) →
        c1.initialized = true ∧
        ∃ map : Bsp, c.getBsp app = some map ∧
          c1.oldLumps =
            if c.initialized = true then c.oldLumps
            else map.duplicate_lumps
              (if map.getDefaultTextureIdx = some (-1) then dupLumps ||| TEXTURES
                else dupLumps)) ∧
    (∀ (c c1 : CreateBspModelCommand) (app app1 : Renderer),
      c.undo host app = some (c1, app1) → c1 = c) := by
  have stepC : ∀ (c c1 : CreateBspModelCommand) (app app1 : Renderer),
      c.execute host app = some (c1, app1) →
        c1.initialized = true ∧
        ∃ map : Bsp, c.getBsp app = some map ∧
          c1.oldLumps =
            if c.initialized = true then c.oldLumps
            else map.duplicate_lumps
              (if map.getDefaultTextureIdx = some (-1) then dupLumps ||| TEXTURES
                else dupLumps) := by
    intro c c1 app app1 h
    obtain ⟨map, t, hm, ht, hi, hl⟩ := CreateBspModelCommand_execute_step host c c1 app app1 h
    refine ⟨hi, map, hm, ?_⟩
    rw [hl, ht]
    simp only [Option.some.injEq]
  refine ⟨?_, ?_, ?_, DuplicateBspModelCommand_undo_step host, stepC,
    CreateBspModelCommand_undo_step host⟩
  · simp only [DuplicateBspModelCommand.run] at hrunD
    cases hx : (DuplicateBspModelCommand.new descD pick).execute host appD with
    | none => rw [hx] at hrunD; cases hrunD
    | some r =>
      obtain ⟨c2, app2⟩ := r
      rw [hx, Option.some_bind] at hrunD
      obtain ⟨map, hm, hi2, hl2⟩ := DuplicateBspModelCommand_execute_step host _ c2 appD app2 hx
      rw [hmapD] at hm
      cases hm
      rw [if_neg (by simp [DuplicateBspModelCommand.new])] at hl2
      obtain ⟨h1, h2⟩ :=
        DuplicateBspModelCommand_run_keeps_snapshot host opsD c2 cD app2 appD1 hi2 hrunD
      have hsnap : cD.oldLumps = mapD.duplicate_lumps dupLumps := h2.trans hl2
      refine ⟨rfl, h1, hsnap, fun k => ?_⟩
      rw [hsnap]
      exact getD_snapshot_dupLumps mapD k
  · simp only [CreateBspModelCommand.run] at hrunC
    cases hx : (CreateBspModelCommand.new descC mapIdx entData size).execute host appC with
    | none => rw [hx] at hrunC; cases hrunC
    | some r =>
      obtain ⟨c2, app2⟩ := r
      rw [hx, Option.some_bind] at hrunC
      obtain ⟨hi2, map, hm, hl2⟩ := stepC _ c2 appC app2 hx
      rw [hmapC] at hm
      cases hm
      rw [if_neg (by simp [CreateBspModelCommand.new])] at hl2
      obtain ⟨h1, h2⟩ :=
        CreateBspModelCommand_run_keeps_snapshot host opsC c2 cC app2 appC1 hi2 hrunC
      have hsnap := h2.trans hl2
      refine ⟨rfl, h1, hsnap, fun k => ?_⟩
      rw [hsnap]
      by_cases ht : mapC.getDefaultTextureIdx = some (-1)
      · simp only [ht, if_true, and_true]
        exact getD_snapshot_dupLumps_textures mapC k
      · simp only [ht, if_false, and_false, or_false]
        exact getD_snapshot_dupLumps mapC k
  · intro c c1 app app1 h
    obtain ⟨map, hm, hi, hl⟩ := DuplicateBspModelCommand_execute_step host c c1 app app1 h
    exact ⟨hi, map, hm, hl⟩

/-- Witness for C10: `execute(); undo(); execute(); undo()` of both commands on the sample
document without texture. -/
theorem lazy_one_time_snapshot_witness :
    ∃ (cD : DuplicateBspModelCommand) (appD1 : Renderer) (cC : CreateBspModelCommand)
      (appC1 : Renderer),
      sampleDuplicateRun = some (cD, appD1) ∧
      sampleCreateModelRun = some (cC, appC1) ∧
      cD.initialized = true ∧
      cD.oldLumps = geomMap.duplicate_lumps dupLumps ∧
      cC.initialized = true ∧
      cC.oldLumps = geomMap.duplicate_lumps
        (if geomMap.getDefaultTextureIdx = some (-1) then dupLumps ||| TEXTURES
          else dupLumps) := by
  cases hD : sampleDuplicateRun with
  | none => exact absurd hD (by decide)
  | some rD =>
    cases hC : sampleCreateModelRun with
    | none => exact absurd hC (by decide)
    | some rC =>
      obtain ⟨cD, appD1⟩ := rD
      obtain ⟨cC, appC1⟩ := rC
      have h := lazy_one_time_snapshot sampleHost "Duplicate BSP Model" ⟨0, 2, 1, some entC⟩
        [false, true, false] geomApp appD1 geomMap cD "Create Model" 0 triggerTemplate 16
        [false, true, false] geomApp appC1 geomMap cC (by decide) hD (by decide) hC
      exact ⟨cD, appD1, cC, appC1, rfl, rfl, h.1.2.1, h.1.2.2.1, h.2.1.2.1, h.2.1.2.2.1⟩

end BspGuy
